import Mathlib

/-!
# ctfdump: header validation, name resolution and the type-record decoder

A shallow embedding of `usr.bin/ctfdump/ctfdump.c`.

* A buffer is a `List Nat` of bytes; every read takes the byte modulo 256 and
  a read outside the list yields 0 (the C code would read whatever memory
  follows the buffer).  Multi-byte fields are little-endian.
* `uint16_t`/`uint32_t`/`uint64_t` values are `Nat`, reduced modulo `2^w`
  wherever the C arithmetic can wrap; `off_t` values are `Int`; `size_t` is
  64 bits wide.
* `printf` output is returned as data, `errx` as an error value, and the
  decoder additionally logs every dereference it makes as a pair
  `(payload offset, width in bytes)`.
-/

namespace Ctfdump

/-! ## Bytes and little-endian reads -/

/-- The byte at index `i` of the buffer `d`; 0 outside the buffer. -/
def byte (d : List Nat) (i : Nat) : Nat := d.getD i 0 % 256

/-- A `uint16_t` load at byte offset `i`. -/
def get16 (d : List Nat) (i : Nat) : Nat := byte d i + 256 * byte d (i + 1)

/-- A `uint32_t` load at byte offset `i`. -/
def get32 (d : List Nat) (i : Nat) : Nat := get16 d i + 65536 * get16 d (i + 2)

/-- The conversion of a `uint32_t` bit pattern to `int32_t`. -/
def int32 (w : Nat) : Int :=
  if w % 4294967296 < 2147483648 then ((w % 4294967296 : Nat) : Int)
  else ((w % 4294967296 : Nat) : Int) - 4294967296

/-- The conversion `(off_t)x` of a `size_t` to the signed 64-bit `off_t`. -/
def off_t_of_size_t (x : Nat) : Int :=
  if x % 18446744073709551616 < 9223372036854775808
  then ((x % 18446744073709551616 : Nat) : Int)
  else ((x % 18446744073709551616 : Nat) : Int) - 18446744073709551616

/-! ## Declarations of `<sys/ctf.h>` -/

/-- Modelled from the spec: `CTF_MAGIC` of `<sys/ctf.h>`, which is not part of
the sources; the value is the one of the published CTF format. -/
def CTF_MAGIC : Nat := 0xcff1

/-- Modelled from the spec: `CTF_VERSION` of `<sys/ctf.h>` (format version 2). -/
def CTF_VERSION : Nat := 2

/-- Modelled from the spec: `CTF_F_COMPRESS` of `<sys/ctf.h>`, bit 0 of the
flags byte. -/
def CTF_F_COMPRESS : Nat := 1

/-- Modelled from the spec: `CTF_MAX_SIZE` of `<sys/ctf.h>`, the largest size
stored in the short form of a type record. -/
def CTF_MAX_SIZE : Nat := 0xfffe

/-- Modelled from the spec: `CTF_LSTRUCT_THRESH` of `<sys/ctf.h>`. -/
def CTF_LSTRUCT_THRESH : Nat := 8192

/-- Modelled from the spec: `CTF_STRTAB_0` of `<sys/ctf.h>`. -/
def CTF_STRTAB_0 : Nat := 0

/-- Modelled from the spec: `CTF_INT_VARARGS` of `<sys/ctf.h>`. -/
def CTF_INT_VARARGS : Nat := 8

/-- Modelled from the spec: `struct ctf_header` of `<sys/ctf.h>`: a 16-bit
magic, 8-bit version and flags, and eight 32-bit words. -/
structure ctf_header where
  cth_magic : Nat
  cth_version : Nat
  cth_flags : Nat
  cth_parlabel : Nat
  cth_parname : Nat
  cth_lbloff : Nat
  cth_objtoff : Nat
  cth_funcoff : Nat
  cth_typeoff : Nat
  cth_stroff : Nat
  cth_strlen : Nat
  deriving DecidableEq

/-- Modelled from the spec: `sizeof(struct ctf_header)`. -/
def sizeof_ctf_header : Nat := 36

/-- Modelled from the spec: `sizeof(struct ctf_stype)`, the short common
header of a type record. -/
def sizeof_ctf_stype : Nat := 8

/-- Modelled from the spec: `sizeof(struct ctf_type)`, the long common header. -/
def sizeof_ctf_type : Nat := 16

/-- Modelled from the spec: `sizeof(struct ctf_array)`. -/
def sizeof_ctf_array : Nat := 8

/-- Modelled from the spec: `sizeof(struct ctf_member)`. -/
def sizeof_ctf_member : Nat := 8

/-- Modelled from the spec: `sizeof(struct ctf_lmember)`. -/
def sizeof_ctf_lmember : Nat := 16

/-- Modelled from the spec: `sizeof(struct ctf_enum)`. -/
def sizeof_ctf_enum : Nat := 8

/-- The effect of `memcpy(&cth, p, sizeof(struct ctf_header))` followed by the
field accesses, for the layout of `struct ctf_header`. -/
def memcpy_header (p : List Nat) : ctf_header :=
  { cth_magic := get16 p 0
    cth_version := byte p 2
    cth_flags := byte p 3
    cth_parlabel := get32 p 4
    cth_parname := get32 p 8
    cth_lbloff := get32 p 12
    cth_objtoff := get32 p 16
    cth_funcoff := get32 p 20
    cth_typeoff := get32 p 24
    cth_stroff := get32 p 28
    cth_strlen := get32 p 32 }

/-- Modelled from the spec: the macro `CTF_INFO_KIND` of `<sys/ctf.h>`. -/
def CTF_INFO_KIND (info : Nat) : Nat := (info &&& 0xf800) >>> 11

/-- Modelled from the spec: the macro `CTF_INFO_ISROOT` of `<sys/ctf.h>`. -/
def CTF_INFO_ISROOT (info : Nat) : Nat := (info &&& 0x0400) >>> 10

/-- Modelled from the spec: the macro `CTF_INFO_VLEN` of `<sys/ctf.h>`. -/
def CTF_INFO_VLEN (info : Nat) : Nat := info &&& 0x03ff

/-- Modelled from the spec: the macro `CTF_NAME_STID` of `<sys/ctf.h>`. -/
def CTF_NAME_STID (n : Nat) : Nat := n >>> 31

/-- Modelled from the spec: the macro `CTF_NAME_OFFSET` of `<sys/ctf.h>`. -/
def CTF_NAME_OFFSET (n : Nat) : Nat := n &&& 0x7fffffff

/-- Modelled from the spec: the macro `CTF_INT_ENCODING` (and
`CTF_FP_ENCODING`) of `<sys/ctf.h>`. -/
def CTF_INT_ENCODING (e : Nat) : Nat := (e &&& 0xff000000) >>> 24

/-- Modelled from the spec: the macro `CTF_INT_OFFSET` (and `CTF_FP_OFFSET`). -/
def CTF_INT_OFFSET (e : Nat) : Nat := (e &&& 0x00ff0000) >>> 16

/-- Modelled from the spec: the macro `CTF_INT_BITS` (and `CTF_FP_BITS`). -/
def CTF_INT_BITS (e : Nat) : Nat := e &&& 0x0000ffff

/-! ## `isctf` -/

/-- The seven ways out of `isctf`, named after the error kinds of the
specification; `Accept` is the final `return 1`. -/
inductive isctf_result where
  | TooSmall
  | BadMagicOrVersion
  | BogusSize
  | Misaligned
  | Truncated
  | Corrupted
  | Accept
  deriving DecidableEq

/-- The value `isctf` returns. -/
def isctf_result.ret : isctf_result → Nat
  | .Accept => 1
  | _ => 0

/-- The diagnostic `isctf` prints with `warnx` on its way out, if any. -/
def isctf_result.warnx : isctf_result → Option String
  | .TooSmall => some "file too small to be CTF"
  | .BadMagicOrVersion => none
  | .BogusSize => some "bogus file size"
  | .Misaligned => some "wrongly aligned offset"
  | .Truncated => some "truncated file"
  | .Corrupted => some "corrupted file"
  | .Accept => none

/-- The function `isctf(p, filesize)`. -/
def isctf (p : List Nat) (filesize : Nat) : isctf_result :=
  if filesize < sizeof_ctf_header then .TooSmall
  else
    let cth := memcpy_header p
    if cth.cth_magic ≠ CTF_MAGIC ∨ cth.cth_version ≠ CTF_VERSION then .BadMagicOrVersion
    else
      let dlen : Int := (cth.cth_stroff : Int) + (cth.cth_strlen : Int)
      if dlen > off_t_of_size_t filesize ∧ cth.cth_flags &&& CTF_F_COMPRESS = 0 then .BogusSize
      else if cth.cth_lbloff &&& 3 ≠ 0 ∨ cth.cth_objtoff &&& 1 ≠ 0 ∨
          cth.cth_funcoff &&& 1 ≠ 0 ∨ cth.cth_typeoff &&& 3 ≠ 0 then .Misaligned
      else if (cth.cth_lbloff : Int) ≥ dlen ∨ (cth.cth_objtoff : Int) ≥ dlen ∨
          (cth.cth_funcoff : Int) ≥ dlen ∨ (cth.cth_typeoff : Int) ≥ dlen then .Truncated
      else if cth.cth_lbloff > cth.cth_objtoff ∨ cth.cth_objtoff > cth.cth_funcoff ∨
          cth.cth_funcoff > cth.cth_typeoff ∨ cth.cth_typeoff > cth.cth_stroff then .Corrupted
      else .Accept

/-! ## Name tables -/

/-- Modelled from the spec: the kind numbers `CTF_K_UNKNOWN` .. `CTF_K_RESTRICT`
of `<sys/ctf.h>`; they are the indices of `kind_name` in `ctf_kind2name`. -/
def CTF_K_UNKNOWN : Nat := 0
/-- Modelled from the spec: kind number of `<sys/ctf.h>`. -/
def CTF_K_INTEGER : Nat := 1
/-- Modelled from the spec: kind number of `<sys/ctf.h>`. -/
def CTF_K_FLOAT : Nat := 2
/-- Modelled from the spec: kind number of `<sys/ctf.h>`. -/
def CTF_K_POINTER : Nat := 3
/-- Modelled from the spec: kind number of `<sys/ctf.h>`. -/
def CTF_K_ARRAY : Nat := 4
/-- Modelled from the spec: kind number of `<sys/ctf.h>`. -/
def CTF_K_FUNCTION : Nat := 5
/-- Modelled from the spec: kind number of `<sys/ctf.h>`. -/
def CTF_K_STRUCT : Nat := 6
/-- Modelled from the spec: kind number of `<sys/ctf.h>`. -/
def CTF_K_UNION : Nat := 7
/-- Modelled from the spec: kind number of `<sys/ctf.h>`. -/
def CTF_K_ENUM : Nat := 8
/-- Modelled from the spec: kind number of `<sys/ctf.h>`. -/
def CTF_K_FORWARD : Nat := 9
/-- Modelled from the spec: kind number of `<sys/ctf.h>`. -/
def CTF_K_TYPEDEF : Nat := 10
/-- Modelled from the spec: kind number of `<sys/ctf.h>`. -/
def CTF_K_VOLATILE : Nat := 11
/-- Modelled from the spec: kind number of `<sys/ctf.h>`. -/
def CTF_K_CONST : Nat := 12
/-- Modelled from the spec: kind number of `<sys/ctf.h>`. -/
def CTF_K_RESTRICT : Nat := 13

/-- The table `kind_name` of `ctf_kind2name`; `none` is the `NULL` entry. -/
def kind_name : List (Option String) :=
  [none, some "INTEGER", some "FLOAT", some "POINTER", some "ARRAY", some "FUNCTION",
   some "STRUCT", some "UNION", some "ENUM", some "FORWARD", some "TYPEDEF",
   some "VOLATILE", some "CONST", some "RESTRICT"]

/-- The function `ctf_kind2name`; `none` is `NULL`. -/
def ctf_kind2name (kind : Nat) : Option String :=
  if kind ≥ kind_name.length then none else kind_name.getD kind none

/-- The text `snprintf(invalid, 7, "0x%x", enc)` leaves in the 7-byte buffer. -/
def hex_name (enc : Nat) : String :=
  String.mk ((['0', 'x'] ++ Nat.toDigits 16 enc).take 6)

/-- The table `enc_name` of `ctf_enc2name`. -/
def int_enc_name : List String := ["SIGNED", "CHAR", "SIGNED CHAR", "BOOL", "SIGNED BOOL"]

/-- The function `ctf_enc2name`. -/
def ctf_enc2name (enc : Nat) : String :=
  if enc = CTF_INT_VARARGS then "VARARGS"
  else if enc > 0 ∧ enc ≤ int_enc_name.length then int_enc_name.getD (enc - 1) ""
  else hex_name enc

/-- The table `enc_name` of `ctf_fpenc2name`; `none` is a `NULL` entry. -/
def fp_enc_name : List (Option String) :=
  [some "SINGLE", some "DOUBLE", none, none, none, some "LDOUBLE"]

/-- The function `ctf_fpenc2name`. -/
def ctf_fpenc2name (enc : Nat) : String :=
  if enc > 0 ∧ enc ≤ fp_enc_name.length then
    match fp_enc_name.getD (enc - 1) none with
    | some s => s
    | none => hex_name enc
  else hex_name enc

/-! ## `ctf_off2name` -/

/-- The bytes of the NUL-terminated C string that starts at `pos`; the end of
the buffer ends the string too. -/
def cstring (d : List Nat) (pos : Nat) : List Nat :=
  ((d.drop pos).map (fun b => b % 256)).takeWhile (fun b => b ≠ 0)

/-- A C string shown as text. -/
def cstring_text (d : List Nat) (pos : Nat) : String :=
  String.mk ((cstring d pos).map Char.ofNat)

/-- The string literal returned at line 654 of `ctfdump.c` for a name offset
outside the string table. -/
def off2name_exceeds : String := "exceeds strlab"

/-- The function `ctf_off2name(cth, data, dlen, offset)`.  The sum
`cth->cth_stroff + CTF_NAME_OFFSET(offset)` of the third test is a `uint32_t`
sum; the pointer sum that locates the name is not reduced. -/
def ctf_off2name (cth : ctf_header) (data : List Nat) (dlen : Int) (offset : Nat) : String :=
  if CTF_NAME_STID offset ≠ CTF_STRTAB_0 then "external"
  else if CTF_NAME_OFFSET offset ≥ cth.cth_strlen then off2name_exceeds
  else if (((cth.cth_stroff + CTF_NAME_OFFSET offset) % 4294967296 : Nat) : Int) ≥ dlen then
    "invalid"
  else if byte data (cth.cth_stroff + CTF_NAME_OFFSET offset) = 0 then "(anon)"
  else cstring_text data (cth.cth_stroff + CTF_NAME_OFFSET offset)

/-! ## `ctf_dump_type` -/

/-- The two calls of `errx` in `ctf_dump_type`: `OffsetOverflow` is
`errx(1, "offset exceeds CTF section")`, `InvalidKind kind offset` is
`errx(1, "incorrect type %u at offset %u", kind, *offset)`. -/
inductive fatal_error where
  | OffsetOverflow
  | InvalidKind (kind offset : Nat)
  deriving DecidableEq

/-- The message of an `errx` call. -/
def fatal_error.message : fatal_error → String
  | .OffsetOverflow => "offset exceeds CTF section"
  | .InvalidKind kind offset =>
    "incorrect type " ++ toString kind ++ " at offset " ++ toString offset

/-- What `ctf_dump_type` prints after the kind and the name, by kind. -/
inductive type_body where
  /-- Nothing more is printed (unknown, forward, or before a fatal error). -/
  | bare
  /-- Integer and float: `encoding=%s offset=%u bits=%u`. -/
  | encoding (name : String) (offset bits : Nat)
  /-- Array: `content: %u index: %u nelems: %u`. -/
  | array (contents index nelems : Nat)
  /-- Function: `returns: %u args: (...)`. -/
  | function (returns : Nat) (args : List Nat)
  /-- Struct and union: `(%llu bytes)` and one line `name type off` a member. -/
  | members (size : Nat) (ms : List (String × Nat × Nat))
  /-- Enum: one line `name = value` an enumerator. -/
  | enumerators (es : List (String × Int))
  /-- Pointer, typedef, volatile, const, restrict: `refers to %u`. -/
  | refers (type : Nat)
  deriving DecidableEq

/-- One run of `ctf_dump_type`: the dereferences made, in order, as
`(payload offset, width)`; what was printed; the `errx` call that ended the
run, if any; and the value of `*offset` at the end. -/
structure dump_type_run where
  reads : List (Nat × Nat)
  idx : Nat
  root : Nat
  kname : Option String
  name : String
  body : type_body
  fatal : Option fatal_error
  offset : Nat
  deriving DecidableEq

/-- Modelled from the spec: the macro `CTF_TYPE_LSIZE` of `<sys/ctf.h>`,
applied to the two 32-bit halves. -/
def CTF_TYPE_LSIZE (ctt_lsizehi ctt_lsizelo : Nat) : Nat :=
  ((ctt_lsizehi <<< 32) ||| ctt_lsizelo) % 18446744073709551616

/-- Modelled from the spec: the macro `CTF_LMEM_OFFSET` of `<sys/ctf.h>`,
applied to the two 32-bit halves. -/
def CTF_LMEM_OFFSET (ctlm_offsethi ctlm_offsetlo : Nat) : Nat :=
  ((ctlm_offsethi <<< 32) ||| ctlm_offsetlo) % 18446744073709551616

/-- Lines 478-484 of `ctf_dump_type`: the pair `(size, toff)` chosen from the
16-bit field `ctt_size` of the record at `offset`. -/
def ctf_type_size (data : List Nat) (offset : Nat) : Nat × Nat :=
  if get16 data (offset + 6) ≤ CTF_MAX_SIZE then
    (get16 data (offset + 6), sizeof_ctf_stype)
  else
    (CTF_TYPE_LSIZE (get32 data (offset + 8)) (get32 data (offset + 12)), sizeof_ctf_type)

/-- The dereferences of the common header: `ctt_info`, `ctt_name`, `ctt_size`
and, in the long form, `ctt_lsizehi` and `ctt_lsizelo`. -/
def header_reads (data : List Nat) (offset : Nat) : List (Nat × Nat) :=
  if get16 data (offset + 6) ≤ CTF_MAX_SIZE then
    [(offset + 4, 2), (offset, 4), (offset + 6, 2)]
  else
    [(offset + 4, 2), (offset, 4), (offset + 6, 2), (offset + 8, 4), (offset + 12, 4)]

/-- The state a loop of `ctf_dump_type` ends in: the final `toff`, the
dereferences made, the items printed, and whether `errx` was called. -/
structure loop_run (α : Type) where
  toff : Nat
  reads : List (Nat × Nat)
  items : List α
  fatal : Bool

/-- The loop `for (i = 1; i < vlen; i++)` of the function case, with `n`
iterations left and `argp` at payload offset `a`: advance `argp`, call `errx`
if it is beyond `data + dlen`, else print `*argp`. -/
def arg_loop (data : List Nat) (dlen : Int) : Nat → Nat → loop_run Nat
  | 0, a => ⟨a, [], [], false⟩
  | n + 1, a =>
    if ((a + 2 : Nat) : Int) > dlen then ⟨a + 2, [], [], true⟩
    else
      let r := arg_loop data dlen n (a + 2)
      ⟨r.toff, (a + 2, 2) :: r.reads, get16 data (a + 2) :: r.items, r.fatal⟩

/-- The common shape of the three loops `for (i = 0; i < vlen; i++)` over
struct/union members (narrow and wide) and enumerators, with `n` iterations
left: call `errx` if `p + toff > data + dlen`; stop if
`toff > stroff - sizeof(*m)`, a comparison in `size_t` (64 bits, so the
difference wraps when `stroff < sizeof(*m)`); else print the record of `sz`
bytes at `p + toff`, decoded by `item`, and add `sz` to `toff`. -/
def member_loop {α : Type} (dlen : Int) (stroff offset sz : Nat) (item : Nat → α) :
    Nat → Nat → loop_run α
  | 0, toff => ⟨toff, [], [], false⟩
  | n + 1, toff =>
    if ((offset + toff : Nat) : Int) > dlen then ⟨toff, [], [], true⟩
    else if toff > (stroff + 18446744073709551616 - sz) % 18446744073709551616 then
      ⟨toff, [], [], false⟩
    else
      let r := member_loop dlen stroff offset sz item n (toff + sz)
      ⟨r.toff, (offset + toff, sz) :: r.reads, item (offset + toff) :: r.items, r.fatal⟩

/-- The line printed for the `struct ctf_member` at payload offset `m`. -/
def member_item (cth : ctf_header) (data : List Nat) (dlen : Int) (m : Nat) :
    String × Nat × Nat :=
  (ctf_off2name cth data dlen (get32 data m), get16 data (m + 4), get16 data (m + 6))

/-- The line printed for the `struct ctf_lmember` at payload offset `m`. -/
def lmember_item (cth : ctf_header) (data : List Nat) (dlen : Int) (m : Nat) :
    String × Nat × Nat :=
  (ctf_off2name cth data dlen (get32 data m), get16 data (m + 4),
    CTF_LMEM_OFFSET (get32 data (m + 8)) (get32 data (m + 12)))

/-- The line printed for the `struct ctf_enum` at payload offset `m`. -/
def enum_item (cth : ctf_header) (data : List Nat) (dlen : Int) (m : Nat) : String × Int :=
  (ctf_off2name cth data dlen (get32 data m), int32 (get32 data (m + 4)))

/-- The state after the statement `switch (kind)` of `ctf_dump_type`: the
dereferences it made, what it printed, the `errx` call that ended it, if any,
and the final value of `toff`. -/
structure switch_run where
  reads : List (Nat × Nat)
  body : type_body
  fatal : Option fatal_error
  toff : Nat
  deriving DecidableEq

/-- The end of a loop inside the `switch`: `errx` if the loop called it, else
the `break` of the case with the loop's `toff`. -/
def after_loop {α : Type} (r : loop_run α) (body : type_body) : switch_run :=
  if r.fatal then ⟨r.reads, body, some .OffsetOverflow, r.toff⟩
  else ⟨r.reads, body, none, r.toff⟩

/-- The statement `switch (kind)` of `ctf_dump_type`, lines 486-593, entered
with the `kind`, `vlen`, `size` and `toff` computed before it.  `toff` stays
below `2^32` (at most `16 + 16 * 1023`), so it is not reduced. -/
def switch_kind (cth : ctf_header) (data : List Nat) (dlen : Int) (stroff offset : Nat)
    (kind vlen size toff : Nat) : switch_run :=
  if kind = CTF_K_UNKNOWN ∨ kind = CTF_K_FORWARD then ⟨[], .bare, none, toff⟩
  else if kind = CTF_K_INTEGER then
    let eob := get32 data (offset + toff)
    ⟨[(offset + toff, 4)],
      .encoding (ctf_enc2name (CTF_INT_ENCODING eob)) (CTF_INT_OFFSET eob) (CTF_INT_BITS eob),
      none, toff + 4⟩
  else if kind = CTF_K_FLOAT then
    let eob := get32 data (offset + toff)
    ⟨[(offset + toff, 4)],
      .encoding (ctf_fpenc2name (CTF_INT_ENCODING eob)) (CTF_INT_OFFSET eob) (CTF_INT_BITS eob),
      none, toff + 4⟩
  else if kind = CTF_K_ARRAY then
    ⟨[(offset + toff, sizeof_ctf_array)],
      .array (get16 data (offset + toff)) (get16 data (offset + toff + 2))
        (get32 data (offset + toff + 4)),
      none, toff + sizeof_ctf_array⟩
  else if kind = CTF_K_FUNCTION then
    let ctt_type := get16 data (offset + 6)
    let r := arg_loop data dlen (vlen - 1) (offset + toff)
    let body := type_body.function ctt_type (get16 data (offset + toff) :: r.items)
    if r.fatal then ⟨(offset + toff, 2) :: r.reads, body, some .OffsetOverflow, toff⟩
    else ⟨(offset + toff, 2) :: r.reads, body, none, toff + (vlen + (vlen &&& 1)) * 2⟩
  else if kind = CTF_K_STRUCT ∨ kind = CTF_K_UNION then
    if size < CTF_LSTRUCT_THRESH then
      let r := member_loop dlen stroff offset sizeof_ctf_member (member_item cth data dlen)
        vlen toff
      after_loop r (.members size r.items)
    else
      let r := member_loop dlen stroff offset sizeof_ctf_lmember (lmember_item cth data dlen)
        vlen toff
      after_loop r (.members size r.items)
  else if kind = CTF_K_ENUM then
    let r := member_loop dlen stroff offset sizeof_ctf_enum (enum_item cth data dlen) vlen toff
    after_loop r (.enumerators r.items)
  else if kind = CTF_K_POINTER ∨ kind = CTF_K_TYPEDEF ∨ kind = CTF_K_VOLATILE ∨
      kind = CTF_K_CONST ∨ kind = CTF_K_RESTRICT then
    ⟨[], .refers (get16 data (offset + 6)), none, toff⟩
  else ⟨[], .bare, some (.InvalidKind kind offset), toff⟩

/-- The function `ctf_dump_type(cth, data, dlen, stroff, offset, idx)`, where
`offset` is the value of `*offset` on entry; `*offset += toff` is reached
when `errx` was not called. -/
def ctf_dump_type (cth : ctf_header) (data : List Nat) (dlen : Int) (stroff offset idx : Nat) :
    dump_type_run :=
  let ctt_info := get16 data (offset + 4)
  let kind := CTF_INFO_KIND ctt_info
  let vlen := CTF_INFO_VLEN ctt_info
  let root := CTF_INFO_ISROOT ctt_info
  let name := ctf_off2name cth data dlen (get32 data offset)
  let kname := ctf_kind2name kind
  let size := (ctf_type_size data offset).1
  let toff := (ctf_type_size data offset).2
  let sw := switch_kind cth data dlen stroff offset kind vlen size toff
  { reads := header_reads data offset ++ sw.reads
    idx := idx
    root := root
    kname := kname
    name := name
    body := sw.body
    fatal := sw.fatal
    offset := if sw.fatal = none then (offset + sw.toff) % 4294967296 else offset }

/-! ## `ctf_dump` -/

/-- Modelled from the spec: `sizeof(struct ctf_lblent)`; the entry holds the
32-bit name-ref `ctl_label` followed by the 32-bit `ctl_typeidx`. -/
def sizeof_ctf_lblent : Nat := 8

/-- The payload `data` of `ctf_dump` for an uncompressed buffer `p`:
`data = (char *)p + sizeof(cth)`. -/
def uncompressed_data (p : List Nat) : List Nat := p.drop sizeof_ctf_header

/-- The value `dlen = (off_t)cth.cth_stroff + cth.cth_strlen` of `ctf_dump`. -/
def ctf_dlen (cth : ctf_header) : Int := (cth.cth_stroff : Int) + (cth.cth_strlen : Int)

/-- What a section walk of `ctf_dump` did: the entries printed, in order, and
the dereferences made, as `(payload offset, width)`. -/
structure walk_run (α : Type) where
  entries : List α
  reads : List (Nat × Nat)

/-- The loop `while (lbloff < cth.cth_objtoff)` of the label section, with the
`uint32_t` cursor at `lbloff`: each iteration prints `ctl_typeidx` and the
resolved `ctl_label` of the entry at `data + lbloff` and adds
`sizeof(*ctl)` to the cursor.  `none` when `fuel` iterations do not reach the
end of the loop. -/
def label_walk (cth : ctf_header) (data : List Nat) (dlen : Int) :
    Nat → Nat → Option (walk_run (Nat × String))
  | 0, lbloff => if lbloff < cth.cth_objtoff then none else some ⟨[], []⟩
  | fuel + 1, lbloff =>
    if lbloff < cth.cth_objtoff then
      (label_walk cth data dlen fuel ((lbloff + sizeof_ctf_lblent) % 4294967296)).map
        (fun r => ⟨(get32 data (lbloff + 4), ctf_off2name cth data dlen (get32 data lbloff)) ::
          r.entries, (lbloff, sizeof_ctf_lblent) :: r.reads⟩)
    else some ⟨[], []⟩

/-- The block `if (flags & DUMP_LABEL)` of `ctf_dump`: the walk of the label
section from `cth_lbloff`, run for at most `fuel` entries. -/
def ctf_dump_labels (cth : ctf_header) (data : List Nat) (fuel : Nat) :
    Option (walk_run (Nat × String)) :=
  label_walk cth data (ctf_dlen cth) fuel cth.cth_lbloff

/-- One line `[i] FUNC (sym) returns: r args: (...)` of the function section. -/
structure func_entry where
  i : Nat
  sym : Option String
  returns : Nat
  args : List Nat
  deriving DecidableEq

/-- The loop `while (vlen-- > 0 && fsp < fend)` of the function section, with
`vlen` iterations left and `fsp` at payload offset `fsp`: print `*fsp++`.  The
field `toff` of the result is the final `fsp`. -/
def func_args (data : List Nat) (fend : Nat) : Nat → Nat → loop_run Nat
  | 0, fsp => ⟨fsp, [], [], false⟩
  | vlen + 1, fsp =>
    if fsp < fend then
      let r := func_args data fend vlen (fsp + 2)
      ⟨r.toff, (fsp, 2) :: r.reads, get16 data fsp :: r.items, r.fatal⟩
    else ⟨fsp, [], [], false⟩

/-- The state after one iteration of the loop `while (fsp < fend)` of the
function section: the cursors `fsp`, `idx` and `i`, the line printed (none for
a filler word), the dereferences made and the value of `idx` with which
`elf_idx2sym(&idx, STT_FUNC)` was called. -/
structure func_step_run where
  fsp : Nat
  idx : Nat
  i : Nat
  entry : Option func_entry
  reads : List (Nat × Nat)
  lookup : Nat

/-- One iteration of the loop `while (fsp < fend)` of the function section,
lines 399-414.  `elf_idx2sym` stands for the call
`elf_idx2sym(&idx, STT_FUNC)` on the symbol table held by libelf: from the
value of `idx` it gives the name returned (`none` for `NULL`) and the new
value of `idx`.  `i` is a `size_t`. -/
def func_step (elf_idx2sym : Nat → Option String × Nat) (data : List Nat) (fend : Nat)
    (fsp idx i : Nat) : func_step_run :=
  let kind := CTF_INFO_KIND (get16 data fsp)
  let vlen := CTF_INFO_VLEN (get16 data fsp)
  let s := elf_idx2sym idx
  let fsp1 := fsp + 2
  let i1 := (i + 1) % 18446744073709551616
  if kind = CTF_K_UNKNOWN ∧ vlen = 0 then ⟨fsp1, s.2, i1, none, [(fsp, 2)], idx⟩
  else
    let r := func_args data fend vlen (fsp1 + 2)
    ⟨r.toff, s.2, i1, some ⟨i1, s.1, get16 data fsp1, r.items⟩,
      (fsp, 2) :: (fsp1, 2) :: r.reads, idx⟩

/-- What the walk of the function section did: the lines printed, the number
of filler words skipped, the values of `idx` passed to `elf_idx2sym`, one a
call, and the dereferences made. -/
structure func_run where
  entries : List func_entry
  fillers : Nat
  lookups : List Nat
  reads : List (Nat × Nat)
  deriving DecidableEq

/-- The loop `while (fsp < fend)` of the function section.  `none` when `fuel`
iterations do not reach the end of the loop. -/
def func_walk (elf_idx2sym : Nat → Option String × Nat) (data : List Nat) (fend : Nat) :
    Nat → Nat → Nat → Nat → Option func_run
  | 0, fsp, _, _ => if fsp < fend then none else some ⟨[], 0, [], []⟩
  | fuel + 1, fsp, idx, i =>
    if fsp < fend then
      let st := func_step elf_idx2sym data fend fsp idx i
      (func_walk elf_idx2sym data fend fuel st.fsp st.idx st.i).map
        (fun r => ⟨st.entry.toList ++ r.entries,
          (if st.entry = none then 1 else 0) + r.fillers,
          st.lookup :: r.lookups, st.reads ++ r.reads⟩)
    else some ⟨[], 0, [], []⟩

/-- The block `if (flags & DUMP_FUNCTION)` of `ctf_dump`: the walk from
`fstart = data + cth_funcoff` to `fend = data + cth_typeoff` with `idx = 0`
and `i = -1`.  Every iteration moves `fsp` by at least one word, so the
length of the section in bytes is fuel enough. -/
def ctf_dump_functions (elf_idx2sym : Nat → Option String × Nat) (cth : ctf_header)
    (data : List Nat) : Option func_run :=
  func_walk elf_idx2sym data cth.cth_typeoff (cth.cth_typeoff - cth.cth_funcoff)
    cth.cth_funcoff 0 18446744073709551615

/-- The loop `while (offset < stroff)` of the type section, with the
`uint32_t` cursor at `offset` and the `uint32_t` counter at `idx`: the runs of
`ctf_dump_type`, in order; a run that ends in `errx` is the last one.  `none`
when `fuel` calls do not reach the end of the loop. -/
def type_walk (cth : ctf_header) (data : List Nat) (dlen : Int) (stroff : Nat) :
    Nat → Nat → Nat → Option (List dump_type_run)
  | 0, offset, _ => if offset < stroff then none else some []
  | fuel + 1, offset, idx =>
    if offset < stroff then
      let r := ctf_dump_type cth data dlen stroff offset idx
      if r.fatal = none then
        (type_walk cth data dlen stroff fuel r.offset ((idx + 1) % 4294967296)).map
          (fun rs => r :: rs)
      else some [r]
    else some []

/-- The block `if (flags & DUMP_TYPE)` of `ctf_dump` for an uncompressed
buffer `p`, run for at most `fuel` calls of `ctf_dump_type`. -/
def ctf_dump_types (p : List Nat) (fuel : Nat) : Option (List dump_type_run) :=
  type_walk (memcpy_header p) (uncompressed_data p) (ctf_dlen (memcpy_header p))
    (memcpy_header p).cth_stroff fuel (memcpy_header p).cth_typeoff 1

/-- The cursor of the string-table walk after the entry at `offset`: the
value `printf("%s\n", str)` returns, the length of `str` in bytes and one
more, is added unless `strcmp(str, "(anon)")` is 0, when 1 is added.  Every
byte of a name is one character of the model's string. -/
def strtab_next (cth : ctf_header) (data : List Nat) (dlen : Int) (offset : Nat) : Nat :=
  if ctf_off2name cth data dlen offset ≠ "(anon)" then
    (offset + ((ctf_off2name cth data dlen offset).length + 1)) % 4294967296
  else (offset + 1) % 4294967296

/-- The loop `while (offset < cth.cth_strlen)` of the block
`if (flags & DUMP_STRTAB)`: the pairs `(offset, str)` printed, in order.
`none` when `fuel` iterations do not reach the end of the loop. -/
def strtab_walk (cth : ctf_header) (data : List Nat) (dlen : Int) :
    Nat → Nat → Option (List (Nat × String))
  | 0, offset => if offset < cth.cth_strlen then none else some []
  | fuel + 1, offset =>
    if offset < cth.cth_strlen then
      (strtab_walk cth data dlen fuel (strtab_next cth data dlen offset)).map
        (fun r => (offset, ctf_off2name cth data dlen offset) :: r)
    else some []

/-- The decision list of the specification for header validation, over a
buffer `p` of length `n`: the first failing check names the result. -/
def isctf_decision_list (p : List Nat) (n : Nat) : isctf_result :=
  let cth := memcpy_header p
  let total_len := cth.cth_stroff + cth.cth_strlen
  if n < sizeof_ctf_header then .TooSmall
  else if cth.cth_magic ≠ CTF_MAGIC ∨ cth.cth_version ≠ CTF_VERSION then .BadMagicOrVersion
  else if total_len > n ∧ cth.cth_flags % 2 = 0 then .BogusSize
  else if cth.cth_lbloff % 4 ≠ 0 ∨ cth.cth_objtoff % 2 ≠ 0 ∨
      cth.cth_funcoff % 2 ≠ 0 ∨ cth.cth_typeoff % 4 ≠ 0 then .Misaligned
  else if cth.cth_lbloff ≥ total_len ∨ cth.cth_objtoff ≥ total_len ∨
      cth.cth_funcoff ≥ total_len ∨ cth.cth_typeoff ≥ total_len then .Truncated
  else if ¬ (cth.cth_lbloff ≤ cth.cth_objtoff ∧ cth.cth_objtoff ≤ cth.cth_funcoff ∧
      cth.cth_funcoff ≤ cth.cth_typeoff ∧ cth.cth_typeoff ≤ cth.cth_stroff) then .Corrupted
  else .Accept

/-- The payload width the specification assigns to a record of the given
kind, with `k` members or enumerators decoded. -/
def payload_bytes (kind vlen size k : Nat) : Nat :=
  if kind = CTF_K_UNKNOWN ∨ kind = CTF_K_FORWARD ∨ kind = CTF_K_POINTER ∨
      kind = CTF_K_TYPEDEF ∨ kind = CTF_K_VOLATILE ∨ kind = CTF_K_CONST ∨
      kind = CTF_K_RESTRICT then 0
  else if kind = CTF_K_INTEGER ∨ kind = CTF_K_FLOAT then 4
  else if kind = CTF_K_ARRAY then 8
  else if kind = CTF_K_FUNCTION then 2 * (vlen + vlen % 2)
  else if kind = CTF_K_STRUCT ∨ kind = CTF_K_UNION then
    if size < 8192 then k * 8 else k * 16
  else if kind = CTF_K_ENUM then k * 8
  else 0

/-- The number of members or enumerators a record was printed with. -/
def body_count : type_body → Nat
  | .members _ ms => ms.length
  | .enumerators es => es.length
  | _ => 0

/-- The width of one member record of a struct or union of the given size (8
bytes narrow, 16 bytes wide) or of one enumerator (8 bytes). -/
def member_size (kind size : Nat) : Nat :=
  if kind = CTF_K_ENUM then 8 else if size < 8192 then 8 else 16

/-! ## Sample inputs -/

/-- The two bytes of a `uint16_t`, little-endian. -/
def put16 (x : Nat) : List Nat := [x % 256, x / 256 % 256]

/-- The four bytes of a `uint32_t`, little-endian. -/
def put32 (x : Nat) : List Nat := put16 (x % 65536) ++ put16 (x / 65536 % 65536)

/-- The bytes of a valid uncompressed header whose label, object, function and
type sections all start at 0, with the given string-table start and length. -/
def file_header (stroff strlen : Nat) : List Nat :=
  put16 CTF_MAGIC ++ [CTF_VERSION, 0] ++ put32 0 ++ put32 0 ++
    put32 0 ++ put32 0 ++ put32 0 ++ put32 0 ++ put32 stroff ++ put32 strlen

/-- The bytes of a short common header `struct ctf_stype`. -/
def stype (ctt_name ctt_info ctt_size : Nat) : List Nat :=
  put32 ctt_name ++ put16 ctt_info ++ put16 ctt_size

/-- The buffer used to exercise `isctf`: a header with the string table at 12
of length 1, an integer record (encoding word `(1 << 24) | 32`) and one NUL. -/
def sample_file : List Nat :=
  file_header 12 1 ++ stype 0 0x0800 4 ++ put32 0x01000020 ++ [0]

/-- A payload of 25 bytes: an unknown record at 0, a struct record at 8 with
`vlen` 2 and size 16, one member record at 16 (name 0, type 1, offset 0), and
the string table (one NUL) at 24. -/
def struct_overrun_payload : List Nat :=
  stype 0 0 0 ++ stype 0 0x3002 16 ++ (put32 0 ++ put16 1 ++ put16 0) ++ [0]

/-- The file made of a header with string table at 24 of length 1 and
`struct_overrun_payload`. -/
def struct_overrun_file : List Nat := file_header 24 1 ++ struct_overrun_payload

/-- A payload of 17 bytes: an unknown record at 0, an enum record at 8 with
`vlen` 2, and the string table (one NUL) at 16. -/
def enum_fatal_payload : List Nat :=
  stype 0 0 0 ++ stype 0 0x4002 4 ++ [0]

/-- The file made of a header with string table at 16 of length 1 and
`enum_fatal_payload`. -/
def enum_fatal_file : List Nat := file_header 16 1 ++ enum_fatal_payload

/-- A payload of 23 bytes: a function record at 0 with `vlen` 0 and `ctt_type`
3, an integer record at 8 whose `ctt_name` is 1, and the string table at 20. -/
def func_vlen0_payload : List Nat :=
  stype 0 0x2800 3 ++ (stype 1 0x0800 4 ++ put32 0x01000020) ++ [0, 0x61, 0]

/-- The file made of a header with string table at 20 of length 3 and
`func_vlen0_payload`. -/
def func_vlen0_file : List Nat := file_header 20 3 ++ func_vlen0_payload

/-- A payload of 9 bytes: a function record at 0 with `vlen` 1, and the string
table (one NUL) at 8. -/
def func_first_word_payload : List Nat :=
  stype 0 0x2801 3 ++ [0]

/-- The file made of a header with string table at 8 of length 1 and
`func_first_word_payload`. -/
def func_first_word_file : List Nat := file_header 8 1 ++ func_first_word_payload

/-- A payload of 10 bytes: a function record at 0 with `vlen` 2, and the string
table (two NULs) at 8. -/
def func_second_word_payload : List Nat :=
  stype 0 0x2802 3 ++ [0, 0]

/-- The file made of a header with string table at 8 of length 2 and
`func_second_word_payload`. -/
def func_second_word_file : List Nat := file_header 8 2 ++ func_second_word_payload

/-- A payload of 29 bytes: an enum record at 0 with two enumerators, named by
the offsets 1 and 3 with the values `0xffffffff` and 5, and the string table
with the names `A` and `B` at 24. -/
def enum_ok_payload : List Nat :=
  stype 0 0x4002 4 ++ (put32 1 ++ put32 0xffffffff) ++ (put32 3 ++ put32 5) ++
    [0, 0x41, 0, 0x42, 0]

/-- The header of `enum_ok_payload`: string table at 24 of length 5. -/
def enum_ok_header : ctf_header := memcpy_header (file_header 24 5)

/-- The decision list of the specification for name resolution of the
name-ref `r`, with `total_len = cth_stroff + cth_strlen`: bit 31 of `r` selects
the table, the low 31 bits are the offset. -/
def off2name_spec (cth : ctf_header) (data : List Nat) (r : Nat) : String :=
  let total_len := cth.cth_stroff + cth.cth_strlen
  let off := r % 2147483648
  if r / 2147483648 % 2 ≠ 0 then "external"
  else if off > cth.cth_strlen then "exceeds strtab"
  else if cth.cth_stroff + off ≥ total_len then "invalid"
  else if byte data (cth.cth_stroff + off) = 0 then "(anon)"
  else cstring_text data (cth.cth_stroff + off)

/-- The bytes of a valid uncompressed header with the given section offsets and
string-table length. -/
def header_bytes (lbloff objtoff funcoff typeoff stroff strlen : Nat) : List Nat :=
  put16 CTF_MAGIC ++ [CTF_VERSION, 0] ++ put32 0 ++ put32 0 ++
    put32 lbloff ++ put32 objtoff ++ put32 funcoff ++ put32 typeoff ++
    put32 stroff ++ put32 strlen

/-- The answer of `elf_idx2sym` when there is no symbol table (`scnsymtab` is
`NULL`): `NULL`, with `idx` left as it is. -/
def no_symbols (idx : Nat) : Option String × Nat := (none, idx)

/-- A payload of 13 bytes: the function section `[0, 4)` holds a filler word
and the info word of a function with no arguments; an unknown type record
follows at 4 and the string table (one NUL) at 12. -/
def func_overrun_payload : List Nat :=
  put16 0 ++ put16 0x2800 ++ stype 0 0 0 ++ [0]

/-- The file made of a header with the type section at 4, the string table at
12 of length 1, and `func_overrun_payload`. -/
def func_overrun_file : List Nat := header_bytes 0 0 0 4 12 1 ++ func_overrun_payload

/-- A payload of 17 bytes: the function section `[0, 8)` holds a function entry
with one argument (info word, return type 3, argument 1) and a filler word; an
unknown type record follows at 8 and the string table (one NUL) at 16. -/
def func_entry_payload : List Nat :=
  put16 0x2801 ++ put16 3 ++ put16 1 ++ put16 0 ++ stype 0 0 0 ++ [0]

/-- The file made of a header with the type section at 8, the string table at
16 of length 1, and `func_entry_payload`. -/
def func_entry_file : List Nat := header_bytes 0 0 0 8 16 1 ++ func_entry_payload

/-- A payload of 13 bytes: the label section `[0, 4)` holds half a label entry;
an unknown type record follows at 4 and the string table (one NUL) at 12. -/
def label_partial_payload : List Nat := put32 0 ++ stype 0 0 0 ++ [0]

/-- The file made of a header with the label section `[0, 4)`, empty object
and function sections, the type section at 4, the string table at 12 of
length 1, and `label_partial_payload`. -/
def label_partial_file : List Nat := header_bytes 0 4 4 4 12 1 ++ label_partial_payload

/-- The raw hex rendering of the specification: `0x` and the lowercase
hexadecimal digits of `e`. -/
def hex_text (e : Nat) : String := "0x" ++ String.mk (Nat.toDigits 16 e)

/-- The name the specification gives to the integer encoding-id `e`. -/
def int_encoding_name (e : Nat) : String :=
  if e = 1 then "SIGNED" else if e = 2 then "CHAR" else if e = 3 then "SIGNED CHAR"
  else if e = 4 then "BOOL" else if e = 5 then "SIGNED BOOL" else if e = 8 then "VARARGS"
  else hex_text e

/-- The name the specification gives to the float encoding-id `e`. -/
def fp_encoding_name (e : Nat) : String :=
  if e = 1 then "SINGLE" else if e = 2 then "DOUBLE" else if e = 6 then "LDOUBLE"
  else hex_text e

/-- A string table of 8 bytes: the empty string at 0 and, at 1, the string
`(anon)`. -/
def strtab_anon_payload : List Nat := [0, 40, 97, 110, 111, 110, 41, 0]

/-- The file made of a header with empty sections, the string table at 0 of
length 8, and `strtab_anon_payload`. -/
def strtab_anon_file : List Nat := file_header 0 8 ++ strtab_anon_payload

/-- A payload of 16 bytes: an unknown record at 0 and an enum record at 8 with
`vlen` 1, whose common header `[8, 16)` runs over the string table announced
at 12. -/
def enum_guard_payload : List Nat :=
  stype 0 0 0 ++ stype 0 0x4001 4

/-- The file made of a header with string table at 12 of length 1 and
`enum_guard_payload`. -/
def enum_guard_file : List Nat := file_header 12 1 ++ enum_guard_payload

/-- A payload of 17 bytes: an enum record at 0 with `vlen` 2, one enumerator
record at 8 (name 0, value 7), and the string table (one NUL) at 16. -/
def enum_truncated_payload : List Nat :=
  stype 0 0x4002 4 ++ (put32 0 ++ put32 7) ++ [0]

/-- The file made of a header with string table at 16 of length 1 and
`enum_truncated_payload`. -/
def enum_truncated_file : List Nat := file_header 16 1 ++ enum_truncated_payload

/-! ## Arithmetic of the masks and casts -/

theorem and_three (x : Nat) : x &&& 3 = x % 4 := Nat.and_pow_two_sub_one_eq_mod x 2

theorem and_one (x : Nat) : x &&& 1 = x % 2 := Nat.and_pow_two_sub_one_eq_mod x 1

theorem off_t_of_size_t_small (x : Nat) (h : x < 9223372036854775808) :
    off_t_of_size_t x = (x : Int) := by
  unfold off_t_of_size_t
  have h1 : x % 18446744073709551616 = x := Nat.mod_eq_of_lt (by omega)
  rw [h1, if_pos h]

theorem shr_and_mask (x k m : Nat) : (x &&& ((2 ^ m - 1) <<< k)) >>> k = (x / 2 ^ k) % 2 ^ m := by
  apply Nat.eq_of_testBit_eq
  intro i
  rw [← Nat.shiftRight_eq_div_pow]
  simp only [Nat.testBit_shiftRight, Nat.testBit_and, Nat.testBit_shiftLeft,
    Nat.testBit_mod_two_pow, Nat.testBit_two_pow_sub_one]
  have h1 : k + i ≥ k := Nat.le_add_right k i
  have h2 : k + i - k = i := by omega
  simp [h1, h2, Bool.and_comm]

theorem kind_eq (info : Nat) : CTF_INFO_KIND info = (info / 2048) % 32 :=
  shr_and_mask info 11 5

theorem vlen_eq (info : Nat) : CTF_INFO_VLEN info = info % 1024 :=
  Nat.and_pow_two_sub_one_eq_mod _ 10

theorem name_offset_eq (r : Nat) : CTF_NAME_OFFSET r = r % 2147483648 :=
  Nat.and_pow_two_sub_one_eq_mod _ 31

theorem name_stid_eq (r : Nat) : CTF_NAME_STID r = r / 2147483648 := by
  unfold CTF_NAME_STID
  rw [Nat.shiftRight_eq_div_pow]

theorem byte_lt (d : List Nat) (i : Nat) : byte d i < 256 := Nat.mod_lt _ (by decide)

theorem get16_lt (d : List Nat) (i : Nat) : get16 d i < 65536 := by
  unfold get16
  have := byte_lt d i
  have := byte_lt d (i + 1)
  omega

theorem get32_lt (d : List Nat) (i : Nat) : get32 d i < 4294967296 := by
  unfold get32
  have := get16_lt d i
  have := get16_lt d (i + 2)
  omega

theorem lsize_eq (hi lo : Nat) (h1 : hi < 4294967296) (h2 : lo < 4294967296) :
    CTF_TYPE_LSIZE hi lo = hi * 4294967296 + lo := by
  unfold CTF_TYPE_LSIZE
  have h3 : lo < 2 ^ 32 := h2
  rw [Nat.shiftLeft_eq, Nat.mul_comm, ← Nat.mul_add_lt_is_or h3 hi]
  apply Nat.mod_eq_of_lt
  omega

/-! ## The member loop -/

theorem member_loop_toff {α : Type} (dlen : Int) (stroff offset sz : Nat) (item : Nat → α) :
    ∀ n toff, (member_loop dlen stroff offset sz item n toff).toff =
      toff + (member_loop dlen stroff offset sz item n toff).items.length * sz := by
  intro n
  induction n with
  | zero => intro toff; simp [member_loop]
  | succ n ih =>
    intro toff
    unfold member_loop
    split_ifs
    · simp
    · simp
    · simp only [List.length_cons]
      rw [ih (toff + sz)]
      ring

theorem member_loop_length_le {α : Type} (dlen : Int) (stroff offset sz : Nat) (item : Nat → α) :
    ∀ n toff, (member_loop dlen stroff offset sz item n toff).items.length ≤ n := by
  intro n
  induction n with
  | zero => intro toff; simp [member_loop]
  | succ n ih =>
    intro toff
    unfold member_loop
    split_ifs
    · simp
    · simp
    · simp only [List.length_cons]
      have := ih (toff + sz)
      omega

theorem member_loop_items {α : Type} (dlen : Int) (stroff offset sz : Nat) (item : Nat → α) :
    ∀ n toff, (member_loop dlen stroff offset sz item n toff).items =
      (List.range (member_loop dlen stroff offset sz item n toff).items.length).map
        (fun i => item (offset + toff + i * sz)) := by
  intro n
  induction n with
  | zero => intro toff; simp [member_loop]
  | succ n ih =>
    intro toff
    unfold member_loop
    split_ifs
    · simp
    · simp
    · simp only [List.length_cons, List.range_succ_eq_map, List.map_cons, List.map_map]
      rw [ih (toff + sz)]
      simp only [List.length_map, List.length_range, Nat.zero_mul, Nat.add_zero]
      congr 1
      apply List.map_congr_left
      intro i _
      simp only [Function.comp, Nat.succ_eq_add_one]
      congr 1
      ring

theorem member_loop_reads {α : Type} (dlen : Int) (stroff offset sz : Nat) (item : Nat → α) :
    ∀ n toff, (member_loop dlen stroff offset sz item n toff).reads =
      (List.range (member_loop dlen stroff offset sz item n toff).items.length).map
        (fun i => (offset + toff + i * sz, sz)) := by
  intro n
  induction n with
  | zero => intro toff; simp [member_loop]
  | succ n ih =>
    intro toff
    unfold member_loop
    split_ifs
    · simp
    · simp
    · simp only [List.length_cons, List.range_succ_eq_map, List.map_cons, List.map_map]
      rw [ih (toff + sz)]
      simp only [Nat.zero_mul, Nat.add_zero]
      congr 1
      apply List.map_congr_left
      intro i _
      simp only [Function.comp, Nat.succ_eq_add_one]
      congr 1
      ring

theorem member_loop_fatal {α : Type} (dlen : Int) (stroff offset sz : Nat) (item : Nat → α) :
    ∀ n toff, (member_loop dlen stroff offset sz item n toff).fatal = true →
      ∃ i, i < n ∧ dlen < ((offset + toff + i * sz : Nat) : Int) := by
  intro n
  induction n with
  | zero => intro toff h; simp [member_loop] at h
  | succ n ih =>
    intro toff h
    unfold member_loop at h
    split_ifs at h with h1 h2
    · exact ⟨0, Nat.succ_pos n, by simpa using h1⟩
    · obtain ⟨i, hi, hd⟩ := ih (toff + sz) h
      refine ⟨i + 1, Nat.succ_lt_succ hi, ?_⟩
      have e : offset + toff + (i + 1) * sz = offset + (toff + sz) + i * sz := by ring
      rw [e]
      exact hd

theorem member_loop_full {α : Type} (dlen : Int) (stroff offset sz : Nat) (item : Nat → α) :
    ∀ n toff,
      (∀ i, i < n → ((offset + toff + i * sz : Nat) : Int) ≤ dlen ∧
        toff + i * sz ≤ (stroff + 18446744073709551616 - sz) % 18446744073709551616) →
      (member_loop dlen stroff offset sz item n toff).fatal = false ∧
      (member_loop dlen stroff offset sz item n toff).items.length = n := by
  intro n
  induction n with
  | zero => intro toff _; simp [member_loop]
  | succ n ih =>
    intro toff h
    have h0 := h 0 (Nat.succ_pos n)
    simp only [Nat.zero_mul, Nat.add_zero] at h0
    unfold member_loop
    rw [if_neg (by omega), if_neg (by omega)]
    have := ih (toff + sz) (fun i hi => by
      have := h (i + 1) (Nat.succ_lt_succ hi)
      have e : offset + toff + (i + 1) * sz = offset + (toff + sz) + i * sz := by ring
      have e2 : toff + (i + 1) * sz = toff + sz + i * sz := by ring
      rw [e, e2] at this
      exact this)
    simp only [List.length_cons]
    exact ⟨this.1, by omega⟩

/-! ## Header validation -/

/-- C1: `isctf` is the decision list TooSmall, BadMagicOrVersion, BogusSize,
Misaligned, Truncated, Corrupted, Accept of the specification, for every buffer
and every length below `2^63`; it returns 1 exactly when the list ends in
Accept; a wrong magic is always rejected; and an accepted header satisfies
the ordering and alignment constraints. -/
theorem isctf_decision_list_correct (p : List Nat) (n : Nat) (hn : n < 9223372036854775808) :
    isctf p n = isctf_decision_list p n ∧
    ((isctf p n).ret = 1 ↔ isctf_decision_list p n = .Accept) ∧
    ((memcpy_header p).cth_magic ≠ CTF_MAGIC → (isctf p n).ret = 0) ∧
    ((isctf p n).ret = 1 →
      (memcpy_header p).cth_lbloff ≤ (memcpy_header p).cth_objtoff ∧
      (memcpy_header p).cth_objtoff ≤ (memcpy_header p).cth_funcoff ∧
      (memcpy_header p).cth_funcoff ≤ (memcpy_header p).cth_typeoff ∧
      (memcpy_header p).cth_typeoff ≤ (memcpy_header p).cth_stroff ∧
      (memcpy_header p).cth_lbloff % 4 = 0 ∧ (memcpy_header p).cth_objtoff % 2 = 0 ∧
      (memcpy_header p).cth_funcoff % 2 = 0 ∧ (memcpy_header p).cth_typeoff % 4 = 0) := by
  have key : isctf p n = isctf_decision_list p n := by
    unfold isctf isctf_decision_list
    simp only [off_t_of_size_t_small n hn, and_three, and_one, CTF_F_COMPRESS]
    by_cases h1 : n < sizeof_ctf_header
    · simp only [if_pos h1]
    · simp only [if_neg h1]
      split_ifs <;> first | rfl | (exfalso; omega)
  refine ⟨key, ?_, ?_, ?_⟩
  · rw [key]
    cases isctf_decision_list p n <;> simp [isctf_result.ret]
  · intro hm
    unfold isctf
    split_ifs <;> simp_all [isctf_result.ret]
  · intro hr
    rw [key] at hr
    unfold isctf_decision_list at hr
    dsimp only at hr
    split_ifs at hr with h1 h2 h3 h4 h5 h6
    all_goals first
      | exact absurd hr (by decide)
      | (simp only [not_or, not_not] at h4 h6; omega)

/-- Witness of C1: the sample buffer of 49 bytes is accepted. -/
theorem isctf_decision_list_correct_witness :
    (49 : Nat) < 9223372036854775808 ∧ isctf sample_file 49 = .Accept ∧
    isctf sample_file 49 = isctf_decision_list sample_file 49 :=
  ⟨by decide, by decide, (isctf_decision_list_correct sample_file 49 (by decide)).1⟩

/-! ## The type-record decoder -/

theorem kind_lt (info : Nat) : CTF_INFO_KIND info < 32 := by
  rw [kind_eq]
  exact Nat.mod_lt _ (by decide)

theorem kind_consts :
    CTF_K_UNKNOWN = 0 ∧ CTF_K_INTEGER = 1 ∧ CTF_K_FLOAT = 2 ∧ CTF_K_POINTER = 3 ∧
    CTF_K_ARRAY = 4 ∧ CTF_K_FUNCTION = 5 ∧ CTF_K_STRUCT = 6 ∧ CTF_K_UNION = 7 ∧
    CTF_K_ENUM = 8 ∧ CTF_K_FORWARD = 9 ∧ CTF_K_TYPEDEF = 10 ∧ CTF_K_VOLATILE = 11 ∧
    CTF_K_CONST = 12 ∧ CTF_K_RESTRICT = 13 :=
  ⟨rfl, rfl, rfl, rfl, rfl, rfl, rfl, rfl, rfl, rfl, rfl, rfl, rfl, rfl⟩

theorem after_loop_fatal {α : Type} (r : loop_run α) (body : type_body) :
    (after_loop r body).fatal = if r.fatal then some .OffsetOverflow else none := by
  unfold after_loop
  split_ifs <;> rfl

theorem after_loop_toff {α : Type} (r : loop_run α) (body : type_body) :
    (after_loop r body).toff = r.toff := by
  unfold after_loop
  split_ifs <;> rfl

theorem after_loop_body {α : Type} (r : loop_run α) (body : type_body) :
    (after_loop r body).body = body := by
  unfold after_loop
  split_ifs <;> rfl

theorem after_loop_reads {α : Type} (r : loop_run α) (body : type_body) :
    (after_loop r body).reads = r.reads := by
  unfold after_loop
  split_ifs <;> rfl

theorem switch_kind_bare (cth : ctf_header) (data : List Nat) (dlen : Int)
    (stroff offset kind vlen size toff : Nat) (hk : kind = CTF_K_UNKNOWN ∨ kind = CTF_K_FORWARD) :
    switch_kind cth data dlen stroff offset kind vlen size toff = ⟨[], .bare, none, toff⟩ := by
  rcases hk with rfl | rfl <;> rfl

theorem switch_kind_integer (cth : ctf_header) (data : List Nat) (dlen : Int)
    (stroff offset kind vlen size toff : Nat) (hk : kind = CTF_K_INTEGER) :
    switch_kind cth data dlen stroff offset kind vlen size toff =
      ⟨[(offset + toff, 4)],
        .encoding (ctf_enc2name (CTF_INT_ENCODING (get32 data (offset + toff))))
          (CTF_INT_OFFSET (get32 data (offset + toff))) (CTF_INT_BITS (get32 data (offset + toff))),
        none, toff + 4⟩ := by
  subst hk
  rfl

theorem switch_kind_float (cth : ctf_header) (data : List Nat) (dlen : Int)
    (stroff offset kind vlen size toff : Nat) (hk : kind = CTF_K_FLOAT) :
    switch_kind cth data dlen stroff offset kind vlen size toff =
      ⟨[(offset + toff, 4)],
        .encoding (ctf_fpenc2name (CTF_INT_ENCODING (get32 data (offset + toff))))
          (CTF_INT_OFFSET (get32 data (offset + toff))) (CTF_INT_BITS (get32 data (offset + toff))),
        none, toff + 4⟩ := by
  subst hk
  rfl

theorem switch_kind_array (cth : ctf_header) (data : List Nat) (dlen : Int)
    (stroff offset kind vlen size toff : Nat) (hk : kind = CTF_K_ARRAY) :
    switch_kind cth data dlen stroff offset kind vlen size toff =
      ⟨[(offset + toff, 8)],
        .array (get16 data (offset + toff)) (get16 data (offset + toff + 2))
          (get32 data (offset + toff + 4)),
        none, toff + 8⟩ := by
  subst hk
  rfl

theorem switch_kind_function (cth : ctf_header) (data : List Nat) (dlen : Int)
    (stroff offset kind vlen size toff : Nat) (hk : kind = CTF_K_FUNCTION) :
    switch_kind cth data dlen stroff offset kind vlen size toff =
      if (arg_loop data dlen (vlen - 1) (offset + toff)).fatal then
        ⟨(offset + toff, 2) :: (arg_loop data dlen (vlen - 1) (offset + toff)).reads,
          .function (get16 data (offset + 6))
            (get16 data (offset + toff) :: (arg_loop data dlen (vlen - 1) (offset + toff)).items),
          some .OffsetOverflow, toff⟩
      else
        ⟨(offset + toff, 2) :: (arg_loop data dlen (vlen - 1) (offset + toff)).reads,
          .function (get16 data (offset + 6))
            (get16 data (offset + toff) :: (arg_loop data dlen (vlen - 1) (offset + toff)).items),
          none, toff + (vlen + (vlen &&& 1)) * 2⟩ := by
  subst hk
  rfl

theorem switch_kind_struct (cth : ctf_header) (data : List Nat) (dlen : Int)
    (stroff offset kind vlen size toff : Nat) (hk : kind = CTF_K_STRUCT ∨ kind = CTF_K_UNION) :
    switch_kind cth data dlen stroff offset kind vlen size toff =
      if size < 8192 then
        after_loop (member_loop dlen stroff offset 8 (member_item cth data dlen) vlen toff)
          (.members size
            (member_loop dlen stroff offset 8 (member_item cth data dlen) vlen toff).items)
      else
        after_loop (member_loop dlen stroff offset 16 (lmember_item cth data dlen) vlen toff)
          (.members size
            (member_loop dlen stroff offset 16 (lmember_item cth data dlen) vlen toff).items) := by
  rcases hk with rfl | rfl <;> rfl

theorem switch_kind_enum (cth : ctf_header) (data : List Nat) (dlen : Int)
    (stroff offset kind vlen size toff : Nat) (hk : kind = CTF_K_ENUM) :
    switch_kind cth data dlen stroff offset kind vlen size toff =
      after_loop (member_loop dlen stroff offset 8 (enum_item cth data dlen) vlen toff)
        (.enumerators
          (member_loop dlen stroff offset 8 (enum_item cth data dlen) vlen toff).items) := by
  subst hk
  rfl

theorem switch_kind_refers (cth : ctf_header) (data : List Nat) (dlen : Int)
    (stroff offset kind vlen size toff : Nat)
    (hk : kind = CTF_K_POINTER ∨ kind = CTF_K_TYPEDEF ∨ kind = CTF_K_VOLATILE ∨
      kind = CTF_K_CONST ∨ kind = CTF_K_RESTRICT) :
    switch_kind cth data dlen stroff offset kind vlen size toff =
      ⟨[], .refers (get16 data (offset + 6)), none, toff⟩ := by
  rcases hk with rfl | rfl | rfl | rfl | rfl <;> rfl

theorem kind_cases (k : Nat) :
    (k = CTF_K_UNKNOWN ∨ k = CTF_K_FORWARD) ∨ k = CTF_K_INTEGER ∨ k = CTF_K_FLOAT ∨
    k = CTF_K_ARRAY ∨ k = CTF_K_FUNCTION ∨ (k = CTF_K_STRUCT ∨ k = CTF_K_UNION) ∨
    k = CTF_K_ENUM ∨
    (k = CTF_K_POINTER ∨ k = CTF_K_TYPEDEF ∨ k = CTF_K_VOLATILE ∨ k = CTF_K_CONST ∨
      k = CTF_K_RESTRICT) ∨ 13 < k := by
  obtain ⟨e0, e1, e2, e3, e4, e5, e6, e7, e8, e9, e10, e11, e12, e13⟩ := kind_consts
  rw [e0, e1, e2, e3, e4, e5, e6, e7, e8, e9, e10, e11, e12, e13]
  omega

theorem switch_kind_invalid (cth : ctf_header) (data : List Nat) (dlen : Int)
    (stroff offset kind vlen size toff : Nat) (hk : 13 < kind) :
    switch_kind cth data dlen stroff offset kind vlen size toff =
      ⟨[], .bare, some (.InvalidKind kind offset), toff⟩ := by
  obtain ⟨e0, e1, e2, e3, e4, e5, e6, e7, e8, e9, e10, e11, e12, e13⟩ := kind_consts
  unfold switch_kind
  rw [e0, e1, e2, e3, e4, e5, e6, e7, e8, e9, e10, e11, e12, e13]
  have n1 : ¬ (kind = 0 ∨ kind = 9) := by omega
  have n2 : ¬ kind = 1 := by omega
  have n3 : ¬ kind = 2 := by omega
  have n4 : ¬ kind = 4 := by omega
  have n5 : ¬ kind = 5 := by omega
  have n6 : ¬ (kind = 6 ∨ kind = 7) := by omega
  have n7 : ¬ kind = 8 := by omega
  have n8 : ¬ (kind = 3 ∨ kind = 10 ∨ kind = 11 ∨ kind = 12 ∨ kind = 13) := by omega
  rw [if_neg n1, if_neg n2, if_neg n3, if_neg n4, if_neg n5, if_neg n6, if_neg n7, if_neg n8]

theorem switch_kind_fatal_of_valid (cth : ctf_header) (data : List Nat) (dlen : Int)
    (stroff offset kind vlen size toff : Nat) (hk : kind ≤ 13) :
    (switch_kind cth data dlen stroff offset kind vlen size toff).fatal = none ∨
    (switch_kind cth data dlen stroff offset kind vlen size toff).fatal =
      some .OffsetOverflow := by
  rcases kind_cases kind with h | h | h | h | h | h | h | h | h
  · rw [switch_kind_bare _ _ _ _ _ _ _ _ _ h]
    exact Or.inl rfl
  · rw [switch_kind_integer _ _ _ _ _ _ _ _ _ h]
    exact Or.inl rfl
  · rw [switch_kind_float _ _ _ _ _ _ _ _ _ h]
    exact Or.inl rfl
  · rw [switch_kind_array _ _ _ _ _ _ _ _ _ h]
    exact Or.inl rfl
  · rw [switch_kind_function _ _ _ _ _ _ _ _ _ h]
    split_ifs
    · exact Or.inr rfl
    · exact Or.inl rfl
  · rw [switch_kind_struct _ _ _ _ _ _ _ _ _ h]
    split_ifs <;> rw [after_loop_fatal] <;> split_ifs
    · exact Or.inr rfl
    · exact Or.inl rfl
    · exact Or.inr rfl
    · exact Or.inl rfl
  · rw [switch_kind_enum _ _ _ _ _ _ _ _ _ h, after_loop_fatal]
    split_ifs
    · exact Or.inr rfl
    · exact Or.inl rfl
  · rw [switch_kind_refers _ _ _ _ _ _ _ _ _ h]
    exact Or.inl rfl
  · omega

theorem switch_kind_invalid_only (cth : ctf_header) (data : List Nat) (dlen : Int)
    (stroff offset kind vlen size toff k o : Nat)
    (h : (switch_kind cth data dlen stroff offset kind vlen size toff).fatal =
        some (.InvalidKind k o)) : 13 < kind := by
  by_contra hk
  rcases switch_kind_fatal_of_valid cth data dlen stroff offset kind vlen size toff
    (by omega) with h1 | h1
  · rw [h1] at h
    exact absurd h (by simp)
  · rw [h1] at h
    exact absurd h (by simp)

theorem switch_kind_invalid_iff (cth : ctf_header) (data : List Nat) (dlen : Int)
    (stroff offset kind vlen size toff : Nat) :
    (switch_kind cth data dlen stroff offset kind vlen size toff).fatal =
        some (.InvalidKind kind offset) ↔ 13 < kind :=
  ⟨switch_kind_invalid_only _ _ _ _ _ _ _ _ _ _ _, fun hk => by
    rw [switch_kind_invalid _ _ _ _ _ _ _ _ _ hk]⟩

/-- C4: `ctf_dump_type` ends in the fatal error `incorrect type` exactly when
the kind field, bits 11..15 of `ctt_info`, is not one of the fourteen kinds
0..13, and then reports that kind and the offset of the record; for the kinds
above 13 `ctf_kind2name` has no name. -/
theorem invalid_kind_iff (cth : ctf_header) (data : List Nat) (dlen : Int)
    (stroff offset idx : Nat) :
    CTF_INFO_KIND (get16 data (offset + 4)) = (get16 data (offset + 4) / 2048) % 32 ∧
    ((ctf_dump_type cth data dlen stroff offset idx).fatal =
        some (.InvalidKind (CTF_INFO_KIND (get16 data (offset + 4))) offset) ↔
      13 < CTF_INFO_KIND (get16 data (offset + 4))) ∧
    ((∃ k o, (ctf_dump_type cth data dlen stroff offset idx).fatal = some (.InvalidKind k o)) ↔
      13 < CTF_INFO_KIND (get16 data (offset + 4))) ∧
    (ctf_kind2name (CTF_INFO_KIND (get16 data (offset + 4))) = none ↔
      (13 < CTF_INFO_KIND (get16 data (offset + 4)) ∨
        CTF_INFO_KIND (get16 data (offset + 4)) = 0)) := by
  refine ⟨kind_eq _, ?_, ?_, ?_⟩
  · exact switch_kind_invalid_iff _ _ _ _ _ _ _ _ _
  · constructor
    · rintro ⟨k, o, h⟩
      exact switch_kind_invalid_only _ _ _ _ _ _ _ _ _ k o h
    · intro h
      exact ⟨_, _, (switch_kind_invalid_iff _ _ _ _ _ _ _ _ _).2 h⟩
  · have hk := kind_lt (get16 data (offset + 4))
    generalize CTF_INFO_KIND (get16 data (offset + 4)) = k at hk
    interval_cases k <;> simp [ctf_kind2name, kind_name]


theorem switch_kind_toff (cth : ctf_header) (data : List Nat) (dlen : Int)
    (stroff offset kind vlen size toff : Nat)
    (h : (switch_kind cth data dlen stroff offset kind vlen size toff).fatal = none) :
    (switch_kind cth data dlen stroff offset kind vlen size toff).toff =
      toff + payload_bytes kind vlen size
        (body_count (switch_kind cth data dlen stroff offset kind vlen size toff).body) ∧
    body_count (switch_kind cth data dlen stroff offset kind vlen size toff).body ≤ vlen := by
  rcases kind_cases kind with hk | hk | hk | hk | hk | hk | hk | hk | hk
  · rw [switch_kind_bare _ _ _ _ _ _ _ _ _ hk]
    rcases hk with rfl | rfl <;> exact ⟨rfl, Nat.zero_le _⟩
  · rw [switch_kind_integer _ _ _ _ _ _ _ _ _ hk]
    subst hk
    exact ⟨rfl, Nat.zero_le _⟩
  · rw [switch_kind_float _ _ _ _ _ _ _ _ _ hk]
    subst hk
    exact ⟨rfl, Nat.zero_le _⟩
  · rw [switch_kind_array _ _ _ _ _ _ _ _ _ hk]
    subst hk
    exact ⟨rfl, Nat.zero_le _⟩
  · rw [switch_kind_function _ _ _ _ _ _ _ _ _ hk] at h ⊢
    subst hk
    split_ifs at h ⊢ with hf
    refine ⟨?_, Nat.zero_le _⟩
    show toff + (vlen + (vlen &&& 1)) * 2 = toff + 2 * (vlen + vlen % 2)
    rw [and_one]
    ring
  · rw [switch_kind_struct _ _ _ _ _ _ _ _ _ hk]
    have p : ∀ k, payload_bytes kind vlen size k = if size < 8192 then k * 8 else k * 16 := by
      intro k
      rcases hk with rfl | rfl <;> rfl
    rw [p]
    split_ifs with hs
    · rw [after_loop_toff, after_loop_body]
      exact ⟨member_loop_toff _ _ _ _ _ _ _, member_loop_length_le _ _ _ _ _ _ _⟩
    · rw [after_loop_toff, after_loop_body]
      exact ⟨member_loop_toff _ _ _ _ _ _ _, member_loop_length_le _ _ _ _ _ _ _⟩
  · rw [switch_kind_enum _ _ _ _ _ _ _ _ _ hk]
    subst hk
    rw [after_loop_toff, after_loop_body]
    exact ⟨member_loop_toff _ _ _ _ _ _ _, member_loop_length_le _ _ _ _ _ _ _⟩
  · rw [switch_kind_refers _ _ _ _ _ _ _ _ _ hk]
    rcases hk with rfl | rfl | rfl | rfl | rfl <;> exact ⟨rfl, Nat.zero_le _⟩
  · have := (switch_kind_invalid_iff cth data dlen stroff offset kind vlen size toff).2 hk
    rw [this] at h
    exact absurd h (by simp)

theorem member_loop_stop {α : Type} (dlen : Int) (stroff offset sz : Nat) (item : Nat → α) :
    ∀ n toff, (member_loop dlen stroff offset sz item n toff).fatal = false →
      (member_loop dlen stroff offset sz item n toff).items.length < n →
      (stroff + 18446744073709551616 - sz) % 18446744073709551616 <
        toff + (member_loop dlen stroff offset sz item n toff).items.length * sz := by
  intro n
  induction n with
  | zero => intro toff _ h; simp [member_loop] at h
  | succ n ih =>
    intro toff hf hl
    unfold member_loop at hf hl ⊢
    split_ifs at hf hl ⊢ with h1 h2
    · simpa using h2
    · simp only [List.length_cons] at hl ⊢
      have := ih (toff + sz) hf (by omega)
      have e : toff + ((member_loop dlen stroff offset sz item n (toff + sz)).items.length + 1) * sz
          = toff + sz + (member_loop dlen stroff offset sz item n (toff + sz)).items.length * sz := by
        ring
      rw [e]
      exact this

theorem member_loop_not_fatal {α : Type} (dlen : Int) (stroff offset sz : Nat) (item : Nat → α)
    (n toff : Nat) (h : ∀ i, i < n → ((offset + toff + i * sz : Nat) : Int) ≤ dlen) :
    (member_loop dlen stroff offset sz item n toff).fatal = false := by
  cases hf : (member_loop dlen stroff offset sz item n toff).fatal with
  | false => rfl
  | true =>
    obtain ⟨i, hi, hd⟩ := member_loop_fatal dlen stroff offset sz item n toff hf
    have := h i hi
    omega

theorem dump_type_fatal (cth : ctf_header) (data : List Nat) (dlen : Int)
    (stroff offset idx : Nat) :
    (ctf_dump_type cth data dlen stroff offset idx).fatal =
      (switch_kind cth data dlen stroff offset (CTF_INFO_KIND (get16 data (offset + 4)))
        (CTF_INFO_VLEN (get16 data (offset + 4))) (ctf_type_size data offset).1
        (ctf_type_size data offset).2).fatal := rfl

theorem dump_type_body (cth : ctf_header) (data : List Nat) (dlen : Int)
    (stroff offset idx : Nat) :
    (ctf_dump_type cth data dlen stroff offset idx).body =
      (switch_kind cth data dlen stroff offset (CTF_INFO_KIND (get16 data (offset + 4)))
        (CTF_INFO_VLEN (get16 data (offset + 4))) (ctf_type_size data offset).1
        (ctf_type_size data offset).2).body := rfl

theorem dump_type_reads (cth : ctf_header) (data : List Nat) (dlen : Int)
    (stroff offset idx : Nat) :
    (ctf_dump_type cth data dlen stroff offset idx).reads =
      header_reads data offset ++
      (switch_kind cth data dlen stroff offset (CTF_INFO_KIND (get16 data (offset + 4)))
        (CTF_INFO_VLEN (get16 data (offset + 4))) (ctf_type_size data offset).1
        (ctf_type_size data offset).2).reads := rfl

theorem dump_type_offset (cth : ctf_header) (data : List Nat) (dlen : Int)
    (stroff offset idx : Nat) :
    (ctf_dump_type cth data dlen stroff offset idx).offset =
      if (switch_kind cth data dlen stroff offset (CTF_INFO_KIND (get16 data (offset + 4)))
        (CTF_INFO_VLEN (get16 data (offset + 4))) (ctf_type_size data offset).1
        (ctf_type_size data offset).2).fatal = none
      then (offset + (switch_kind cth data dlen stroff offset
        (CTF_INFO_KIND (get16 data (offset + 4)))
        (CTF_INFO_VLEN (get16 data (offset + 4))) (ctf_type_size data offset).1
        (ctf_type_size data offset).2).toff) % 4294967296
      else offset := rfl

/-- C2: the size encoding is chosen by the comparison of the 16-bit field
`ctt_size` with `CTF_MAX_SIZE` = 0xfffe: at or below it the size is `ctt_size`
and the common header is the short form of 8 bytes; above it the size is
`(ctt_lsizehi << 32) | ctt_lsizelo`, a 64-bit value, and the common header is
the long form of 16 bytes.  `ctf_dump_type` prints that size for a struct or
union and, for a pointer, advances the cursor by that header width. -/
theorem ctf_type_size_threshold (data : List Nat) (offset : Nat) :
    ctf_type_size data offset =
      (if get16 data (offset + 6) ≤ 0xfffe then (get16 data (offset + 6), 8)
       else (get32 data (offset + 8) * 4294967296 + get32 data (offset + 12), 16)) ∧
    (ctf_type_size data offset).1 < 18446744073709551616 ∧
    (∀ (cth : ctf_header) (dlen : Int) (stroff idx : Nat),
      (CTF_INFO_KIND (get16 data (offset + 4)) = CTF_K_STRUCT ∨
        CTF_INFO_KIND (get16 data (offset + 4)) = CTF_K_UNION) →
      ∃ ms, (ctf_dump_type cth data dlen stroff offset idx).body =
        .members (if get16 data (offset + 6) ≤ 0xfffe then get16 data (offset + 6)
          else get32 data (offset + 8) * 4294967296 + get32 data (offset + 12)) ms) ∧
    (∀ (cth : ctf_header) (dlen : Int) (stroff idx : Nat),
      CTF_INFO_KIND (get16 data (offset + 4)) = CTF_K_POINTER →
      (ctf_dump_type cth data dlen stroff offset idx).offset =
        (offset + (if get16 data (offset + 6) ≤ 0xfffe then 8 else 16)) % 4294967296) := by
  have h1 := get32_lt data (offset + 8)
  have h2 := get32_lt data (offset + 12)
  have h3 := get16_lt data (offset + 6)
  have key : ctf_type_size data offset =
      (if get16 data (offset + 6) ≤ 0xfffe then (get16 data (offset + 6), 8)
       else (get32 data (offset + 8) * 4294967296 + get32 data (offset + 12), 16)) := by
    unfold ctf_type_size
    rw [lsize_eq _ _ h1 h2]
    rfl
  refine ⟨key, ?_, ?_, ?_⟩
  · rw [key]
    split_ifs
    · dsimp only
      omega
    · dsimp only
      omega
  · intro cth dlen stroff idx hk
    have e : (ctf_type_size data offset).1 =
        (if get16 data (offset + 6) ≤ 0xfffe then get16 data (offset + 6)
          else get32 data (offset + 8) * 4294967296 + get32 data (offset + 12)) := by
      rw [key]
      split_ifs <;> rfl
    rw [dump_type_body, switch_kind_struct _ _ _ _ _ _ _ _ _ hk, ← e]
    split_ifs
    · exact ⟨_, after_loop_body _ _⟩
    · exact ⟨_, after_loop_body _ _⟩
  · intro cth dlen stroff idx hk
    have e : (ctf_type_size data offset).2 =
        (if get16 data (offset + 6) ≤ 0xfffe then 8 else 16) := by
      rw [key]
      split_ifs <;> rfl
    rw [dump_type_offset, switch_kind_refers _ _ _ _ _ _ _ _ _ (Or.inl hk), ← e]
    rfl

/-- Witness of C2: the struct record of the sample payload has the short
header and is printed with its size 16. -/
theorem ctf_type_size_threshold_witness :
    ctf_type_size struct_overrun_payload 8 = (16, 8) ∧
    ∃ ms, (ctf_dump_type (memcpy_header struct_overrun_file) struct_overrun_payload 25 24 8
      2).body = .members 16 ms :=
  ⟨(ctf_type_size_threshold struct_overrun_payload 8).1,
    (ctf_type_size_threshold struct_overrun_payload 8).2.2.1
      (memcpy_header struct_overrun_file) 25 24 2 (by decide)⟩

theorem toff_cases (data : List Nat) (offset : Nat) :
    (ctf_type_size data offset).2 = 8 ∨ (ctf_type_size data offset).2 = 16 := by
  unfold ctf_type_size
  split_ifs
  · exact Or.inl rfl
  · exact Or.inr rfl

theorem after_loop_not_fatal {α : Type} (r : loop_run α) (body : type_body)
    (h : (after_loop r body).fatal = none) : r.fatal = false := by
  rw [after_loop_fatal] at h
  cases hf : r.fatal with
  | false => rfl
  | true =>
    rw [hf] at h
    exact absurd h (by simp)

theorem switch_kind_truncated (cth : ctf_header) (data : List Nat) (dlen : Int)
    (stroff offset kind vlen size toff : Nat)
    (h : (switch_kind cth data dlen stroff offset kind vlen size toff).fatal = none)
    (hk : kind = CTF_K_STRUCT ∨ kind = CTF_K_UNION ∨ kind = CTF_K_ENUM)
    (hl : body_count (switch_kind cth data dlen stroff offset kind vlen size toff).body < vlen) :
    (stroff + 18446744073709551616 - member_size kind size) % 18446744073709551616 <
      toff + body_count (switch_kind cth data dlen stroff offset kind vlen size toff).body *
        member_size kind size := by
  have hk2 : (kind = CTF_K_STRUCT ∨ kind = CTF_K_UNION) ∨ kind = CTF_K_ENUM := by
    rcases hk with h1 | h1 | h1
    · exact Or.inl (Or.inl h1)
    · exact Or.inl (Or.inr h1)
    · exact Or.inr h1
  rcases hk2 with hs | he
  · have m : member_size kind size = if size < 8192 then 8 else 16 := by
      rcases hs with rfl | rfl <;> rfl
    rw [switch_kind_struct _ _ _ _ _ _ _ _ _ hs] at h hl ⊢
    rw [m]
    split_ifs at h hl ⊢ with hsz
    · rw [after_loop_body] at hl ⊢
      exact member_loop_stop _ _ _ _ _ _ _ (after_loop_not_fatal _ _ h) hl
    · rw [after_loop_body] at hl ⊢
      exact member_loop_stop _ _ _ _ _ _ _ (after_loop_not_fatal _ _ h) hl
  · have m : member_size kind size = 8 := by
      subst he
      rfl
    rw [switch_kind_enum _ _ _ _ _ _ _ _ _ he] at h hl ⊢
    rw [m, after_loop_body] at *
    exact member_loop_stop _ _ _ _ _ _ _ (after_loop_not_fatal _ _ h) hl

theorem dump_type_offset_of_ok (cth : ctf_header) (data : List Nat) (dlen : Int)
    (stroff offset idx : Nat)
    (h : (ctf_dump_type cth data dlen stroff offset idx).fatal = none) :
    ((ctf_type_size data offset).2 = 8 ∨ (ctf_type_size data offset).2 = 16) ∧
    body_count (ctf_dump_type cth data dlen stroff offset idx).body ≤
      CTF_INFO_VLEN (get16 data (offset + 4)) ∧
    (ctf_dump_type cth data dlen stroff offset idx).offset =
      (offset + ((ctf_type_size data offset).2 +
        payload_bytes (CTF_INFO_KIND (get16 data (offset + 4)))
          (CTF_INFO_VLEN (get16 data (offset + 4))) (ctf_type_size data offset).1
          (body_count (ctf_dump_type cth data dlen stroff offset idx).body))) % 4294967296 ∧
    ((CTF_INFO_KIND (get16 data (offset + 4)) = CTF_K_STRUCT ∨
        CTF_INFO_KIND (get16 data (offset + 4)) = CTF_K_UNION ∨
        CTF_INFO_KIND (get16 data (offset + 4)) = CTF_K_ENUM) →
      body_count (ctf_dump_type cth data dlen stroff offset idx).body <
        CTF_INFO_VLEN (get16 data (offset + 4)) →
      (stroff + 18446744073709551616 -
          member_size (CTF_INFO_KIND (get16 data (offset + 4))) (ctf_type_size data offset).1) %
          18446744073709551616 <
        (ctf_type_size data offset).2 +
          body_count (ctf_dump_type cth data dlen stroff offset idx).body *
            member_size (CTF_INFO_KIND (get16 data (offset + 4)))
              (ctf_type_size data offset).1) := by
  rw [dump_type_fatal] at h
  have hs := switch_kind_toff cth data dlen stroff offset (CTF_INFO_KIND (get16 data (offset + 4)))
    (CTF_INFO_VLEN (get16 data (offset + 4))) (ctf_type_size data offset).1
    (ctf_type_size data offset).2 h
  rw [dump_type_offset, dump_type_body, if_pos h, hs.1]
  exact ⟨toff_cases data offset, hs.2, rfl, switch_kind_truncated _ _ _ _ _ _ _ _ _ h⟩

/-- C3: when `ctf_dump_type` returns, the common header is 8 or 16 bytes wide,
the number `k` of members or enumerators printed is at most `vlen`, and the
`uint32_t` cursor has advanced by the header width plus the payload width of
the kind (`*offset += toff`, so modulo `2^32`); and fewer than `vlen` members
are decoded only when the loop was stopped by its string-section test. -/
theorem dump_type_advance (cth : ctf_header) (data : List Nat) (dlen : Int)
    (stroff offset idx : Nat)
    (h : (ctf_dump_type cth data dlen stroff offset idx).fatal = none) :
    ((ctf_type_size data offset).2 = 8 ∨ (ctf_type_size data offset).2 = 16) ∧
    body_count (ctf_dump_type cth data dlen stroff offset idx).body ≤
      CTF_INFO_VLEN (get16 data (offset + 4)) ∧
    (ctf_dump_type cth data dlen stroff offset idx).offset =
      (offset + ((ctf_type_size data offset).2 +
        payload_bytes (CTF_INFO_KIND (get16 data (offset + 4)))
          (CTF_INFO_VLEN (get16 data (offset + 4))) (ctf_type_size data offset).1
          (body_count (ctf_dump_type cth data dlen stroff offset idx).body))) % 4294967296 ∧
    ((CTF_INFO_KIND (get16 data (offset + 4)) = CTF_K_STRUCT ∨
        CTF_INFO_KIND (get16 data (offset + 4)) = CTF_K_UNION ∨
        CTF_INFO_KIND (get16 data (offset + 4)) = CTF_K_ENUM) →
      body_count (ctf_dump_type cth data dlen stroff offset idx).body <
        CTF_INFO_VLEN (get16 data (offset + 4)) →
      (stroff + 18446744073709551616 -
          member_size (CTF_INFO_KIND (get16 data (offset + 4))) (ctf_type_size data offset).1) %
          18446744073709551616 <
        (ctf_type_size data offset).2 +
          body_count (ctf_dump_type cth data dlen stroff offset idx).body *
            member_size (CTF_INFO_KIND (get16 data (offset + 4)))
              (ctf_type_size data offset).1) :=
  dump_type_offset_of_ok cth data dlen stroff offset idx h

/-- Witness of C3: the struct record of the sample payload, two members. -/
theorem dump_type_advance_witness :
    (ctf_dump_type (memcpy_header struct_overrun_file) struct_overrun_payload 25 24 8 2).offset =
      (8 + (8 + 2 * 8)) % 4294967296 :=
  (dump_type_advance (memcpy_header struct_overrun_file) struct_overrun_payload 25 24 8 2
    (by decide)).2.2.1



/-- C5: on an accepted file whose type section is `[0, 24)`, the struct record
at cursor 8 with `vlen` 2 has its second member read at payload offsets
`[24, 32)`, past the string-section start 24, and the run is not cut short:
the loop compares the record-relative `toff` with `stroff - sizeof(*ctm)`. -/
theorem struct_member_read_past_stroff :
    isctf struct_overrun_file 61 = .Accept ∧
    (memcpy_header struct_overrun_file).cth_typeoff = 0 ∧
    (memcpy_header struct_overrun_file).cth_stroff = 24 ∧
    (memcpy_header struct_overrun_file).cth_strlen = 1 ∧
    struct_overrun_file.drop sizeof_ctf_header = struct_overrun_payload ∧
    (ctf_dump_type (memcpy_header struct_overrun_file) struct_overrun_payload 25 24 0 1).offset
      = 8 ∧
    CTF_INFO_KIND (get16 struct_overrun_payload (8 + 4)) = CTF_K_STRUCT ∧
    CTF_INFO_VLEN (get16 struct_overrun_payload (8 + 4)) = 2 ∧
    (ctf_dump_type (memcpy_header struct_overrun_file) struct_overrun_payload 25 24 8 2).fatal
      = none ∧
    (ctf_dump_type (memcpy_header struct_overrun_file) struct_overrun_payload 25 24 8 2).reads
      = [(12, 2), (8, 4), (14, 2), (16, 8), (24, 8)] ∧
    24 + 8 > (memcpy_header struct_overrun_file).cth_stroff := by
  decide

/-- C6, as stated, fails: on an accepted file with the string table at 12 of
length 1 (`total_len` 13), the enum record at cursor 8 with `vlen` 1 would have
its first enumerator start at 16, beyond `total_len`; the run does not stop
and return but ends in the fatal error `offset exceeds CTF section`, with
nothing decoded and the cursor left at 8. -/
theorem enum_guard_fires_at_first_iteration :
    isctf enum_guard_file 52 = .Accept ∧
    uncompressed_data enum_guard_file = enum_guard_payload ∧
    (memcpy_header enum_guard_file).cth_typeoff = 0 ∧
    (memcpy_header enum_guard_file).cth_stroff = 12 ∧
    ctf_dlen (memcpy_header enum_guard_file) = 13 ∧
    (ctf_dump_type (memcpy_header enum_guard_file) enum_guard_payload 13 12 0 1).fatal = none ∧
    (ctf_dump_type (memcpy_header enum_guard_file) enum_guard_payload 13 12 0 1).offset = 8 ∧
    CTF_INFO_KIND (get16 enum_guard_payload (8 + 4)) = CTF_K_ENUM ∧
    CTF_INFO_VLEN (get16 enum_guard_payload (8 + 4)) = 1 ∧
    (ctf_dump_type (memcpy_header enum_guard_file) enum_guard_payload 13 12 8 2).fatal
      = some .OffsetOverflow ∧
    (ctf_dump_type (memcpy_header enum_guard_file) enum_guard_payload 13 12 8 2).body
      = .enumerators [] ∧
    (ctf_dump_type (memcpy_header enum_guard_file) enum_guard_payload 13 12 8 2).offset = 8 ∧
    (13 : Int) < ((8 + 8 : Nat) : Int) := by
  decide

/-- Support for C6: on an accepted file whose type section is `[0, 16)`
and whose payload is 17 bytes long, the enum record at cursor 8 with `vlen` 2
ends in the fatal error `offset exceeds CTF section`. -/
theorem enum_overrun_is_fatal :
    isctf enum_fatal_file 53 = .Accept ∧
    (memcpy_header enum_fatal_file).cth_stroff = 16 ∧
    (memcpy_header enum_fatal_file).cth_strlen = 1 ∧
    enum_fatal_file.drop sizeof_ctf_header = enum_fatal_payload ∧
    (ctf_dump_type (memcpy_header enum_fatal_file) enum_fatal_payload 17 16 0 1).offset = 8 ∧
    CTF_INFO_KIND (get16 enum_fatal_payload (8 + 4)) = CTF_K_ENUM ∧
    CTF_INFO_VLEN (get16 enum_fatal_payload (8 + 4)) = 2 ∧
    (ctf_dump_type (memcpy_header enum_fatal_file) enum_fatal_payload 17 16 8 2).fatal
      = some .OffsetOverflow := by
  decide

theorem switch_kind_loop_fatal (cth : ctf_header) (data : List Nat) (dlen : Int)
    (stroff offset kind vlen size toff : Nat)
    (hk : kind = CTF_K_STRUCT ∨ kind = CTF_K_UNION ∨ kind = CTF_K_ENUM) :
    ((∀ i, i < vlen → ((offset + toff + i * member_size kind size : Nat) : Int) ≤ dlen) →
      (switch_kind cth data dlen stroff offset kind vlen size toff).fatal = none) ∧
    ((switch_kind cth data dlen stroff offset kind vlen size toff).fatal ≠ none →
      (switch_kind cth data dlen stroff offset kind vlen size toff).fatal =
        some .OffsetOverflow ∧
      ∃ i, i < vlen ∧ dlen < ((offset + toff + i * member_size kind size : Nat) : Int)) := by
  have key : ∀ {α : Type} (sz : Nat) (item : Nat → α) (body : type_body),
      ((∀ i, i < vlen → ((offset + toff + i * sz : Nat) : Int) ≤ dlen) →
        (after_loop (member_loop dlen stroff offset sz item vlen toff) body).fatal = none) ∧
      ((after_loop (member_loop dlen stroff offset sz item vlen toff) body).fatal ≠ none →
        (after_loop (member_loop dlen stroff offset sz item vlen toff) body).fatal =
          some .OffsetOverflow ∧
        ∃ i, i < vlen ∧ dlen < ((offset + toff + i * sz : Nat) : Int)) := by
    intro α sz item body
    rw [after_loop_fatal]
    constructor
    · intro h
      rw [member_loop_not_fatal dlen stroff offset sz item vlen toff h]
      rfl
    · intro h
      cases hf : (member_loop dlen stroff offset sz item vlen toff).fatal with
      | false =>
        rw [hf] at h
        exact absurd rfl h
      | true => exact ⟨rfl, member_loop_fatal dlen stroff offset sz item vlen toff hf⟩
  have hk2 : (kind = CTF_K_STRUCT ∨ kind = CTF_K_UNION) ∨ kind = CTF_K_ENUM := by
    rcases hk with h1 | h1 | h1
    · exact Or.inl (Or.inl h1)
    · exact Or.inl (Or.inr h1)
    · exact Or.inr h1
  rcases hk2 with hs | he
  · have m : member_size kind size = if size < 8192 then 8 else 16 := by
      rcases hs with rfl | rfl <;> rfl
    rw [switch_kind_struct _ _ _ _ _ _ _ _ _ hs, m]
    split_ifs with hsz
    · exact key 8 _ _
    · exact key 16 _ _
  · have m : member_size kind size = 8 := by
      subst he
      rfl
    rw [switch_kind_enum _ _ _ _ _ _ _ _ _ he, m]
    exact key 8 _ _

theorem member_loop_decoded_within {α : Type} (dlen : Int) (stroff offset sz : Nat)
    (item : Nat → α) :
    ∀ n toff j, j < (member_loop dlen stroff offset sz item n toff).items.length →
      ((offset + toff + j * sz : Nat) : Int) ≤ dlen := by
  intro n
  induction n with
  | zero => intro toff j h; simp [member_loop] at h
  | succ n ih =>
    intro toff j h
    unfold member_loop at h
    split_ifs at h with h1 h2
    · simp at h
    · simp at h
    · simp only [List.length_cons] at h
      cases j with
      | zero =>
        simp only [Nat.zero_mul, Nat.add_zero]
        omega
      | succ j =>
        have := ih (toff + sz) j (by omega)
        have e : offset + toff + (j + 1) * sz = offset + (toff + sz) + j * sz := by ring
        rw [e]
        exact this

theorem member_loop_fatal_iff {α : Type} (dlen : Int) (stroff offset sz : Nat)
    (item : Nat → α) :
    ∀ n toff, (member_loop dlen stroff offset sz item n toff).fatal = true ↔
      ((member_loop dlen stroff offset sz item n toff).items.length < n ∧
        dlen < ((offset + toff +
          (member_loop dlen stroff offset sz item n toff).items.length * sz : Nat) : Int)) := by
  intro n
  induction n with
  | zero => intro toff; simp [member_loop]
  | succ n ih =>
    intro toff
    unfold member_loop
    split_ifs with h1 h2
    · simp only [List.length_nil, Nat.zero_mul, Nat.add_zero, true_iff]
      exact ⟨Nat.succ_pos n, by omega⟩
    · simp only [List.length_nil, Nat.zero_mul, Nat.add_zero, Bool.false_eq_true, false_iff,
        not_and]
      intro _
      omega
    · simp only [List.length_cons]
      rw [ih (toff + sz)]
      have e : offset + toff +
          ((member_loop dlen stroff offset sz item n (toff + sz)).items.length + 1) * sz =
          offset + (toff + sz) +
            (member_loop dlen stroff offset sz item n (toff + sz)).items.length * sz := by ring
      rw [e]
      constructor
      · rintro ⟨a, b⟩
        exact ⟨by omega, b⟩
      · rintro ⟨a, b⟩
        exact ⟨by omega, b⟩


theorem switch_kind_loop_exact (cth : ctf_header) (data : List Nat) (dlen : Int)
    (stroff offset kind vlen size toff : Nat)
    (hk : kind = CTF_K_STRUCT ∨ kind = CTF_K_UNION ∨ kind = CTF_K_ENUM) :
    (∀ j, j < body_count (switch_kind cth data dlen stroff offset kind vlen size toff).body →
      ((offset + toff + j * member_size kind size : Nat) : Int) ≤ dlen) ∧
    ((switch_kind cth data dlen stroff offset kind vlen size toff).fatal =
        some .OffsetOverflow ↔
      (body_count (switch_kind cth data dlen stroff offset kind vlen size toff).body < vlen ∧
        dlen < ((offset + toff +
          body_count (switch_kind cth data dlen stroff offset kind vlen size toff).body *
            member_size kind size : Nat) : Int))) := by
  have key : ∀ {α : Type} (sz : Nat) (item : Nat → α) (body : type_body),
      body_count body = (member_loop dlen stroff offset sz item vlen toff).items.length →
      (∀ j, j < body_count
          (after_loop (member_loop dlen stroff offset sz item vlen toff) body).body →
        ((offset + toff + j * sz : Nat) : Int) ≤ dlen) ∧
      ((after_loop (member_loop dlen stroff offset sz item vlen toff) body).fatal =
          some .OffsetOverflow ↔
        (body_count (after_loop (member_loop dlen stroff offset sz item vlen toff) body).body
            < vlen ∧
          dlen < ((offset + toff +
            body_count (after_loop (member_loop dlen stroff offset sz item vlen toff) body).body
              * sz : Nat) : Int))) := by
    intro α sz item body hb
    rw [after_loop_body, after_loop_fatal, hb]
    refine ⟨member_loop_decoded_within dlen stroff offset sz item vlen toff, ?_⟩
    rw [← member_loop_fatal_iff dlen stroff offset sz item vlen toff]
    cases (member_loop dlen stroff offset sz item vlen toff).fatal <;> simp
  have hk2 : (kind = CTF_K_STRUCT ∨ kind = CTF_K_UNION) ∨ kind = CTF_K_ENUM := by
    rcases hk with h1 | h1 | h1
    · exact Or.inl (Or.inl h1)
    · exact Or.inl (Or.inr h1)
    · exact Or.inr h1
  rcases hk2 with hs | he
  · have m : member_size kind size = if size < 8192 then 8 else 16 := by
      rcases hs with rfl | rfl <;> rfl
    rw [switch_kind_struct _ _ _ _ _ _ _ _ _ hs, m]
    split_ifs with hsz
    · exact key 8 _ _ rfl
    · exact key 16 _ _ rfl
  · have m : member_size kind size = 8 := by
      subst he
      rfl
    rw [switch_kind_enum _ _ _ _ _ _ _ _ _ he, m]
    exact key 8 _ _ rfl

/-- C6, amended: for a struct, union or enum record with `k` members or
enumerators decoded, `ctf_dump_type` ends in the fatal error
`offset exceeds CTF section` exactly when the iteration that follows them
exists (`k < vlen`) and its record would start beyond `data + dlen`; no record
that starts beyond `data + dlen` is ever decoded, so a first record that
starts beyond it always aborts the run, with the cursor left in place; this
is the only fatal error of the three kinds; and a run that is not fatal, also
one stopped early at the string-section bound, keeps its `k ≤ vlen` members
and moves the cursor by the header and `k` member records. -/
theorem member_overrun_amended (cth : ctf_header) (data : List Nat) (dlen : Int)
    (stroff offset idx : Nat)
    (hk : CTF_INFO_KIND (get16 data (offset + 4)) = CTF_K_STRUCT ∨
      CTF_INFO_KIND (get16 data (offset + 4)) = CTF_K_UNION ∨
      CTF_INFO_KIND (get16 data (offset + 4)) = CTF_K_ENUM) :
    ((ctf_dump_type cth data dlen stroff offset idx).fatal = some .OffsetOverflow ↔
      (body_count (ctf_dump_type cth data dlen stroff offset idx).body <
          CTF_INFO_VLEN (get16 data (offset + 4)) ∧
        dlen < ((offset + (ctf_type_size data offset).2 +
          body_count (ctf_dump_type cth data dlen stroff offset idx).body *
            member_size (CTF_INFO_KIND (get16 data (offset + 4)))
              (ctf_type_size data offset).1 : Nat) : Int))) ∧
    (∀ j, j < body_count (ctf_dump_type cth data dlen stroff offset idx).body →
      ((offset + (ctf_type_size data offset).2 +
        j * member_size (CTF_INFO_KIND (get16 data (offset + 4)))
          (ctf_type_size data offset).1 : Nat) : Int) ≤ dlen) ∧
    (1 ≤ CTF_INFO_VLEN (get16 data (offset + 4)) →
      dlen < ((offset + (ctf_type_size data offset).2 : Nat) : Int) →
      (ctf_dump_type cth data dlen stroff offset idx).fatal = some .OffsetOverflow ∧
      body_count (ctf_dump_type cth data dlen stroff offset idx).body = 0 ∧
      (ctf_dump_type cth data dlen stroff offset idx).offset = offset) ∧
    ((ctf_dump_type cth data dlen stroff offset idx).fatal = none ∨
      (ctf_dump_type cth data dlen stroff offset idx).fatal = some .OffsetOverflow) ∧
    ((ctf_dump_type cth data dlen stroff offset idx).fatal = none →
      body_count (ctf_dump_type cth data dlen stroff offset idx).body ≤
        CTF_INFO_VLEN (get16 data (offset + 4)) ∧
      (ctf_dump_type cth data dlen stroff offset idx).offset =
        (offset + ((ctf_type_size data offset).2 +
          body_count (ctf_dump_type cth data dlen stroff offset idx).body *
            member_size (CTF_INFO_KIND (get16 data (offset + 4)))
              (ctf_type_size data offset).1)) % 4294967296) ∧
    ((∀ i, i < CTF_INFO_VLEN (get16 data (offset + 4)) →
        ((offset + (ctf_type_size data offset).2 +
          i * member_size (CTF_INFO_KIND (get16 data (offset + 4)))
            (ctf_type_size data offset).1 : Nat) : Int) ≤ dlen) →
      (ctf_dump_type cth data dlen stroff offset idx).fatal = none) ∧
    ((ctf_dump_type cth data dlen stroff offset idx).fatal ≠ none →
      (ctf_dump_type cth data dlen stroff offset idx).fatal = some .OffsetOverflow ∧
      ∃ i, i < CTF_INFO_VLEN (get16 data (offset + 4)) ∧
        dlen < ((offset + (ctf_type_size data offset).2 +
          i * member_size (CTF_INFO_KIND (get16 data (offset + 4)))
            (ctf_type_size data offset).1 : Nat) : Int)) := by
  have hl := switch_kind_loop_fatal cth data dlen stroff offset
    (CTF_INFO_KIND (get16 data (offset + 4))) (CTF_INFO_VLEN (get16 data (offset + 4)))
    (ctf_type_size data offset).1 (ctf_type_size data offset).2 hk
  have hx := switch_kind_loop_exact cth data dlen stroff offset
    (CTF_INFO_KIND (get16 data (offset + 4))) (CTF_INFO_VLEN (get16 data (offset + 4)))
    (ctf_type_size data offset).1 (ctf_type_size data offset).2 hk
  have hadv : (ctf_dump_type cth data dlen stroff offset idx).fatal = none →
      body_count (ctf_dump_type cth data dlen stroff offset idx).body ≤
        CTF_INFO_VLEN (get16 data (offset + 4)) ∧
      (ctf_dump_type cth data dlen stroff offset idx).offset =
        (offset + ((ctf_type_size data offset).2 +
          body_count (ctf_dump_type cth data dlen stroff offset idx).body *
            member_size (CTF_INFO_KIND (get16 data (offset + 4)))
              (ctf_type_size data offset).1)) % 4294967296 := by
    intro hf
    have ha := dump_type_offset_of_ok cth data dlen stroff offset idx hf
    refine ⟨ha.2.1, ?_⟩
    rw [ha.2.2.1]
    have p : ∀ k, payload_bytes (CTF_INFO_KIND (get16 data (offset + 4)))
        (CTF_INFO_VLEN (get16 data (offset + 4))) (ctf_type_size data offset).1 k =
        k * member_size (CTF_INFO_KIND (get16 data (offset + 4)))
          (ctf_type_size data offset).1 := by
      intro k
      generalize CTF_INFO_KIND (get16 data (offset + 4)) = kind at hk
      generalize (ctf_type_size data offset).1 = size
      rcases hk with rfl | rfl | rfl
      · show (if size < 8192 then k * 8 else k * 16) = k * (if size < 8192 then 8 else 16)
        split_ifs <;> rfl
      · show (if size < 8192 then k * 8 else k * 16) = k * (if size < 8192 then 8 else 16)
        split_ifs <;> rfl
      · rfl
    rw [p]
  have hcases : (ctf_dump_type cth data dlen stroff offset idx).fatal = none ∨
      (ctf_dump_type cth data dlen stroff offset idx).fatal = some .OffsetOverflow := by
    cases hf : (ctf_dump_type cth data dlen stroff offset idx).fatal with
    | none => exact Or.inl rfl
    | some e =>
      have := (hl.2 (by rw [dump_type_fatal] at hf; rw [hf]; simp)).1
      rw [dump_type_fatal] at hf
      rw [hf] at this
      exact Or.inr this
  refine ⟨hx.2, hx.1, ?_, hcases, hadv, hl.1, hl.2⟩
  intro hv hd
  have hk0 : body_count (ctf_dump_type cth data dlen stroff offset idx).body = 0 := by
    by_contra hne
    have := hx.1 0 (Nat.pos_of_ne_zero hne)
    simp only [Nat.zero_mul, Nat.add_zero] at this
    omega
  have hfat : (ctf_dump_type cth data dlen stroff offset idx).fatal = some .OffsetOverflow := by
    refine hx.2.2 ⟨?_, ?_⟩
    · have e : body_count (switch_kind cth data dlen stroff offset
          (CTF_INFO_KIND (get16 data (offset + 4))) (CTF_INFO_VLEN (get16 data (offset + 4)))
          (ctf_type_size data offset).1 (ctf_type_size data offset).2).body = 0 := hk0
      rw [e]
      omega
    · have e : body_count (switch_kind cth data dlen stroff offset
          (CTF_INFO_KIND (get16 data (offset + 4))) (CTF_INFO_VLEN (get16 data (offset + 4)))
          (ctf_type_size data offset).1 (ctf_type_size data offset).2).body = 0 := hk0
      rw [e]
      simpa using hd
  refine ⟨hfat, hk0, ?_⟩
  rw [dump_type_offset]
  rw [dump_type_fatal] at hfat
  rw [hfat]
  rfl

/-- Witness of the amended C6: the enum record at cursor 8 of
`enum_guard_payload`, whose first enumerator would start beyond `dlen`, aborts;
the enum record of `enum_truncated_payload`, with `vlen` 2, is stopped after
one enumerator and returns with the cursor at 16. -/
theorem member_overrun_amended_witness :
    ((ctf_dump_type (memcpy_header enum_guard_file) enum_guard_payload 13 12 8 2).fatal
        = some .OffsetOverflow ∧
      body_count (ctf_dump_type (memcpy_header enum_guard_file) enum_guard_payload 13 12 8
        2).body = 0 ∧
      (ctf_dump_type (memcpy_header enum_guard_file) enum_guard_payload 13 12 8 2).offset = 8) ∧
    (CTF_INFO_VLEN (get16 enum_truncated_payload (0 + 4)) = 2 ∧
      (ctf_dump_type (memcpy_header enum_truncated_file) enum_truncated_payload 17 16 0 1).fatal
        = none ∧
      (ctf_dump_type (memcpy_header enum_truncated_file) enum_truncated_payload 17 16 0 1).body
        = .enumerators [("(anon)", 7)] ∧
      (ctf_dump_type (memcpy_header enum_truncated_file) enum_truncated_payload 17 16 0
        1).offset = 16) :=
  ⟨(member_overrun_amended (memcpy_header enum_guard_file) enum_guard_payload 13 12 8 2
      (by decide)).2.2.1 (by decide) (by decide),
    by decide, by decide, by decide,
    ((member_overrun_amended (memcpy_header enum_truncated_file) enum_truncated_payload 17 16 0 1
      (by decide)).2.2.2.2.1 (by decide)).2⟩

/-- C7: on an accepted file, the function record at cursor 0 has `vlen` 0 and
`ctt_type` 3, yet it is printed with one argument, the 16-bit word that
follows the common header (here the first word of the next record). -/
theorem function_vlen0_prints_argument :
    isctf func_vlen0_file 59 = .Accept ∧
    func_vlen0_file.drop sizeof_ctf_header = func_vlen0_payload ∧
    CTF_INFO_KIND (get16 func_vlen0_payload (0 + 4)) = CTF_K_FUNCTION ∧
    CTF_INFO_VLEN (get16 func_vlen0_payload (0 + 4)) = 0 ∧
    (ctf_dump_type (memcpy_header func_vlen0_file) func_vlen0_payload 23 20 0 1).fatal = none ∧
    (ctf_dump_type (memcpy_header func_vlen0_file) func_vlen0_payload 23 20 0 1).body
      = .function 3 [1] ∧
    (ctf_dump_type (memcpy_header func_vlen0_file) func_vlen0_payload 23 20 0 1).offset = 8 := by
  decide

/-- C8: the first argument word is read without any check, and a later one is
checked only by its start: with `total_len` 9 the word `[8, 10)` is read, and
with `total_len` 10 the second word `[10, 12)` is read, both without error. -/
theorem function_argument_read_past_total_len :
    (isctf func_first_word_file 45 = .Accept ∧
      func_first_word_file.drop sizeof_ctf_header = func_first_word_payload ∧
      (memcpy_header func_first_word_file).cth_stroff +
        (memcpy_header func_first_word_file).cth_strlen = 9 ∧
      CTF_INFO_KIND (get16 func_first_word_payload (0 + 4)) = CTF_K_FUNCTION ∧
      CTF_INFO_VLEN (get16 func_first_word_payload (0 + 4)) = 1 ∧
      (ctf_dump_type (memcpy_header func_first_word_file) func_first_word_payload 9 8 0 1).fatal
        = none ∧
      (ctf_dump_type (memcpy_header func_first_word_file) func_first_word_payload 9 8 0 1).reads
        = [(4, 2), (0, 4), (6, 2), (8, 2)] ∧
      8 + 2 > 9) ∧
    (isctf func_second_word_file 46 = .Accept ∧
      func_second_word_file.drop sizeof_ctf_header = func_second_word_payload ∧
      (memcpy_header func_second_word_file).cth_stroff +
        (memcpy_header func_second_word_file).cth_strlen = 10 ∧
      CTF_INFO_KIND (get16 func_second_word_payload (0 + 4)) = CTF_K_FUNCTION ∧
      CTF_INFO_VLEN (get16 func_second_word_payload (0 + 4)) = 2 ∧
      (ctf_dump_type (memcpy_header func_second_word_file) func_second_word_payload 10 8 0 1).fatal
        = none ∧
      (ctf_dump_type (memcpy_header func_second_word_file) func_second_word_payload 10 8 0 1).reads
        = [(4, 2), (0, 4), (6, 2), (8, 2), (10, 2)] ∧
      10 + 2 > 10) := by
  decide

theorem int32_all_ones : int32 0xffffffff = -1 := by decide

/-- C9: an enum record with `vlen = n` whose `n` enumerator records end at or
before the string-section start and `total_len` is printed with exactly `n`
pairs, in buffer order: the name is `ctf_off2name` of `cte_name` and the value
is `cte_value` read as `int32_t` (the word `0xffffffff` is -1). -/
theorem enum_pairs (cth : ctf_header) (data : List Nat) (dlen : Int)
    (stroff offset idx n : Nat) (hs : stroff < 4294967296)
    (hk : CTF_INFO_KIND (get16 data (offset + 4)) = CTF_K_ENUM)
    (hv : CTF_INFO_VLEN (get16 data (offset + 4)) = n)
    (h1 : offset + (ctf_type_size data offset).2 + n * 8 ≤ stroff)
    (h2 : ((offset + (ctf_type_size data offset).2 + n * 8 : Nat) : Int) ≤ dlen) :
    (ctf_dump_type cth data dlen stroff offset idx).fatal = none ∧
    (ctf_dump_type cth data dlen stroff offset idx).body =
      .enumerators ((List.range n).map (fun i =>
        (ctf_off2name cth data dlen (get32 data (offset + (ctf_type_size data offset).2 + i * 8)),
          int32 (get32 data (offset + (ctf_type_size data offset).2 + i * 8 + 4))))) ∧
    int32 0xffffffff = -1 := by
  have ht := toff_cases data offset
  have full := member_loop_full dlen stroff offset 8 (enum_item cth data dlen) n
    (ctf_type_size data offset).2 (fun i hi => by
      constructor
      · have : offset + (ctf_type_size data offset).2 + i * 8 ≤
            offset + (ctf_type_size data offset).2 + n * 8 := by omega
        omega
      · omega)
  have items := member_loop_items dlen stroff offset 8 (enum_item cth data dlen) n
    (ctf_type_size data offset).2
  rw [full.2] at items
  rw [dump_type_fatal, dump_type_body, switch_kind_enum _ _ _ _ _ _ _ _ _ hk, hv,
    after_loop_fatal, after_loop_body, full.1, items]
  exact ⟨rfl, rfl, int32_all_ones⟩


/-- Witness of C9: an enum record with two enumerators, `A = -1` and `B = 5`. -/
theorem enum_pairs_witness :
    (ctf_dump_type enum_ok_header enum_ok_payload 29 24 0 1).fatal = none ∧
    (ctf_dump_type enum_ok_header enum_ok_payload 29 24 0 1).body =
      .enumerators [("A", -1), ("B", 5)] :=
  have h := enum_pairs enum_ok_header enum_ok_payload 29 24 0 1 2 (by decide) (by decide)
    (by decide) (by decide) (by decide)
  ⟨h.1, h.2.1.trans (by decide)⟩

/-- C10, as stated, fails: for the name-ref 1 and a string table of length 1
the offset does not exceed `cth_strlen`, so the stated list answers
`invalid`, while `ctf_off2name` answers with its out-of-table literal. -/
theorem off2name_at_strlen :
    (memcpy_header func_first_word_file).cth_strlen = 1 ∧
    off2name_spec (memcpy_header func_first_word_file) func_first_word_payload 1 = "invalid" ∧
    ctf_off2name (memcpy_header func_first_word_file) func_first_word_payload
      (((memcpy_header func_first_word_file).cth_stroff +
        (memcpy_header func_first_word_file).cth_strlen : Nat) : Int) 1 = off2name_exceeds ∧
    ctf_off2name (memcpy_header func_first_word_file) func_first_word_payload
      (((memcpy_header func_first_word_file).cth_stroff +
        (memcpy_header func_first_word_file).cth_strlen : Nat) : Int) 1 ≠
      off2name_spec (memcpy_header func_first_word_file) func_first_word_payload 1 := by
  decide

/-- C10, amended: with `dlen = cth_stroff + cth_strlen`, `ctf_off2name` of a
32-bit name-ref `r` is `external` if bit 31 of `r` is set; else the
out-of-table literal if the offset `r mod 2^31` is at least `cth_strlen`; else
`invalid` if `cth_stroff + offset ≥ dlen`; else `(anon)` if the byte at
`cth_stroff + offset` is NUL; else the NUL-terminated string that starts
there. -/
theorem off2name_decision_list (cth : ctf_header) (data : List Nat) (r : Nat)
    (hr : r < 4294967296) :
    ctf_off2name cth data ((cth.cth_stroff + cth.cth_strlen : Nat) : Int) r =
      if r / 2147483648 % 2 ≠ 0 then "external"
      else if r % 2147483648 ≥ cth.cth_strlen then off2name_exceeds
      else if cth.cth_stroff + r % 2147483648 ≥ cth.cth_stroff + cth.cth_strlen then "invalid"
      else if byte data (cth.cth_stroff + r % 2147483648) = 0 then "(anon)"
      else cstring_text data (cth.cth_stroff + r % 2147483648) := by
  unfold ctf_off2name
  rw [name_stid_eq, name_offset_eq]
  simp only [CTF_STRTAB_0]
  have hm := Nat.mod_le (cth.cth_stroff + r % 2147483648) 4294967296
  split_ifs <;> first | rfl | (exfalso; omega)

/-- Witness of the amended C10: the name-ref 1 resolves to the string `A`. -/
theorem off2name_decision_list_witness :
    ctf_off2name enum_ok_header enum_ok_payload 29 1 = "A" :=
  (off2name_decision_list enum_ok_header enum_ok_payload 1 (by decide)).trans (by decide)

theorem arg_loop_full (data : List Nat) (dlen : Int) :
    ∀ n a, ((a + 2 * n : Nat) : Int) ≤ dlen →
      (arg_loop data dlen n a).fatal = false ∧
      (arg_loop data dlen n a).items = (List.range n).map (fun i => get16 data (a + 2 + 2 * i)) := by
  intro n
  induction n with
  | zero => intro a _; simp [arg_loop]
  | succ n ih =>
    intro a h
    unfold arg_loop
    rw [if_neg (by omega)]
    have := ih (a + 2) (by
      have e : a + 2 + 2 * n = a + 2 * (n + 1) := by ring
      rw [e]
      exact h)
    refine ⟨this.1, ?_⟩
    simp only [List.range_succ_eq_map, List.map_cons, List.map_map, this.2]
    congr 1
    apply List.map_congr_left
    intro i _
    simp only [Function.comp, Nat.succ_eq_add_one]
    congr 1
    ring

/-- Support for C7: a function record with `vlen = n ≥ 1` whose `n` argument
words end at or before `data + dlen` is printed with `ctt_type` as the return
type and exactly the `n` words that follow the common header. -/
theorem function_args_of_pos (cth : ctf_header) (data : List Nat) (dlen : Int)
    (stroff offset idx n : Nat)
    (hk : CTF_INFO_KIND (get16 data (offset + 4)) = CTF_K_FUNCTION)
    (hv : CTF_INFO_VLEN (get16 data (offset + 4)) = n) (hn : 0 < n)
    (h2 : ((offset + (ctf_type_size data offset).2 + 2 * n : Nat) : Int) ≤ dlen) :
    (ctf_dump_type cth data dlen stroff offset idx).fatal = none ∧
    (ctf_dump_type cth data dlen stroff offset idx).body =
      .function (get16 data (offset + 6))
        ((List.range n).map (fun i => get16 data (offset + (ctf_type_size data offset).2 + 2 * i))) := by
  obtain ⟨m, rfl⟩ : ∃ m, n = m + 1 := ⟨n - 1, by omega⟩
  have full := arg_loop_full data dlen m (offset + (ctf_type_size data offset).2) (by omega)
  rw [dump_type_fatal, dump_type_body, switch_kind_function _ _ _ _ _ _ _ _ _ hk, hv,
    Nat.add_sub_cancel, full.1, full.2]
  refine ⟨rfl, ?_⟩
  simp only [Bool.false_eq_true, if_false, List.range_succ_eq_map, List.map_cons, List.map_map,
    Nat.mul_zero, Nat.add_zero]
  congr 2
  apply List.map_congr_left
  intro i _
  simp only [Function.comp, Nat.succ_eq_add_one]
  congr 1
  ring

/-! ## The section walks of `ctf_dump` -/

theorem func_args_toff (data : List Nat) (fend : Nat) :
    ∀ vlen fsp, fsp ≤ (func_args data fend vlen fsp).toff := by
  intro vlen
  induction vlen with
  | zero => intro fsp; simp [func_args]
  | succ n ih =>
    intro fsp
    unfold func_args
    split_ifs
    · have := ih (fsp + 2)
      dsimp only
      omega
    · exact Nat.le_refl _

theorem func_args_full (data : List Nat) (fend : Nat) :
    ∀ vlen fsp, fsp + 2 * vlen ≤ fend →
      (func_args data fend vlen fsp).toff = fsp + 2 * vlen ∧
      (func_args data fend vlen fsp).items =
        (List.range vlen).map (fun j => get16 data (fsp + 2 * j)) ∧
      (func_args data fend vlen fsp).reads =
        (List.range vlen).map (fun j => (fsp + 2 * j, 2)) := by
  intro vlen
  induction vlen with
  | zero => intro fsp _; simp [func_args]
  | succ n ih =>
    intro fsp h
    unfold func_args
    rw [if_pos (by omega)]
    obtain ⟨h1, h2, h3⟩ := ih (fsp + 2) (by omega)
    refine ⟨?_, ?_, ?_⟩
    · dsimp only
      omega
    · simp only [List.range_succ_eq_map, List.map_cons, List.map_map, h2, Nat.mul_zero,
        Nat.add_zero]
      congr 1
      apply List.map_congr_left
      intro j _
      simp only [Function.comp, Nat.succ_eq_add_one]
      congr 1
      ring
    · simp only [List.range_succ_eq_map, List.map_cons, List.map_map, h3, Nat.mul_zero,
        Nat.add_zero]
      congr 1
      apply List.map_congr_left
      intro j _
      simp only [Function.comp, Nat.succ_eq_add_one]
      congr 1
      ring

theorem func_step_filler (elf_idx2sym : Nat → Option String × Nat) (data : List Nat)
    (fend fsp idx i : Nat)
    (h : CTF_INFO_KIND (get16 data fsp) = CTF_K_UNKNOWN ∧ CTF_INFO_VLEN (get16 data fsp) = 0) :
    func_step elf_idx2sym data fend fsp idx i =
      ⟨fsp + 2, (elf_idx2sym idx).2, (i + 1) % 18446744073709551616, none, [(fsp, 2)], idx⟩ := by
  unfold func_step
  rw [if_pos h]

theorem func_step_real (elf_idx2sym : Nat → Option String × Nat) (data : List Nat)
    (fend fsp idx i : Nat)
    (h : ¬ (CTF_INFO_KIND (get16 data fsp) = CTF_K_UNKNOWN ∧
      CTF_INFO_VLEN (get16 data fsp) = 0)) :
    func_step elf_idx2sym data fend fsp idx i =
      ⟨(func_args data fend (CTF_INFO_VLEN (get16 data fsp)) (fsp + 2 + 2)).toff,
        (elf_idx2sym idx).2, (i + 1) % 18446744073709551616,
        some ⟨(i + 1) % 18446744073709551616, (elf_idx2sym idx).1, get16 data (fsp + 2),
          (func_args data fend (CTF_INFO_VLEN (get16 data fsp)) (fsp + 2 + 2)).items⟩,
        (fsp, 2) :: (fsp + 2, 2) ::
          (func_args data fend (CTF_INFO_VLEN (get16 data fsp)) (fsp + 2 + 2)).reads, idx⟩ := by
  unfold func_step
  rw [if_neg h]

theorem func_step_advances (elf_idx2sym : Nat → Option String × Nat) (data : List Nat)
    (fend fsp idx i : Nat) : fsp + 2 ≤ (func_step elf_idx2sym data fend fsp idx i).fsp := by
  by_cases h : CTF_INFO_KIND (get16 data fsp) = CTF_K_UNKNOWN ∧
      CTF_INFO_VLEN (get16 data fsp) = 0
  · rw [func_step_filler _ _ _ _ _ _ h]
  · rw [func_step_real _ _ _ _ _ _ h]
    have := func_args_toff data fend (CTF_INFO_VLEN (get16 data fsp)) (fsp + 2 + 2)
    dsimp only
    omega

theorem func_walk_total (elf_idx2sym : Nat → Option String × Nat) (data : List Nat)
    (fend : Nat) :
    ∀ fuel fsp idx i, fend - fsp ≤ fuel →
      ∃ r, func_walk elf_idx2sym data fend fuel fsp idx i = some r := by
  intro fuel
  induction fuel with
  | zero =>
    intro fsp idx i h
    unfold func_walk
    rw [if_neg (by omega)]
    exact ⟨_, rfl⟩
  | succ n ih =>
    intro fsp idx i h
    unfold func_walk
    split_ifs with hlt
    · have ha := func_step_advances elf_idx2sym data fend fsp idx i
      obtain ⟨r, hr⟩ := ih (func_step elf_idx2sym data fend fsp idx i).fsp
        (func_step elf_idx2sym data fend fsp idx i).idx
        (func_step elf_idx2sym data fend fsp idx i).i (by omega)
      dsimp only
      rw [hr]
      exact ⟨_, rfl⟩
    · exact ⟨_, rfl⟩

theorem func_walk_lookups (elf_idx2sym : Nat → Option String × Nat) (data : List Nat)
    (fend : Nat) :
    ∀ fuel fsp idx i r, func_walk elf_idx2sym data fend fuel fsp idx i = some r →
      r.lookups.length = r.fillers + r.entries.length := by
  intro fuel
  induction fuel with
  | zero =>
    intro fsp idx i r h
    unfold func_walk at h
    split_ifs at h
    cases h
    rfl
  | succ n ih =>
    intro fsp idx i r h
    unfold func_walk at h
    split_ifs at h with hlt
    · dsimp only at h
      cases hw : func_walk elf_idx2sym data fend n
          (func_step elf_idx2sym data fend fsp idx i).fsp
          (func_step elf_idx2sym data fend fsp idx i).idx
          (func_step elf_idx2sym data fend fsp idx i).i with
      | none =>
        rw [hw] at h
        cases h
      | some r' =>
        rw [hw] at h
        cases h
        have := ih _ _ _ _ hw
        cases he : (func_step elf_idx2sym data fend fsp idx i).entry with
        | none =>
          simp only [List.length_cons, Option.toList, List.nil_append, if_true, this]
          omega
        | some e =>
          simp only [List.length_cons, Option.toList, List.singleton_append, this,
            reduceCtorEq, if_false]
          omega
    · cases h
      rfl

/-- C11: the walk of the function section calls `elf_idx2sym` once in every
iteration, filler or real: the walk ends, and the number of calls is the
number of filler words plus the number of lines printed; an iteration on a
word with kind 0 and `vlen` 0 moves the cursor by one word, prints nothing and
still makes its call and counts its entry index. -/
theorem function_walk_symbol_lockstep (elf_idx2sym : Nat → Option String × Nat)
    (cth : ctf_header) (data : List Nat) :
    (∃ r, ctf_dump_functions elf_idx2sym cth data = some r ∧
      r.lookups.length = r.fillers + r.entries.length) ∧
    (∀ fend fsp idx i,
      CTF_INFO_KIND (get16 data fsp) = CTF_K_UNKNOWN ∧ CTF_INFO_VLEN (get16 data fsp) = 0 →
      (func_step elf_idx2sym data fend fsp idx i).fsp = fsp + 2 ∧
      (func_step elf_idx2sym data fend fsp idx i).entry = none ∧
      (func_step elf_idx2sym data fend fsp idx i).lookup = idx ∧
      (func_step elf_idx2sym data fend fsp idx i).idx = (elf_idx2sym idx).2 ∧
      (func_step elf_idx2sym data fend fsp idx i).i = (i + 1) % 18446744073709551616 ∧
      (func_step elf_idx2sym data fend fsp idx i).reads = [(fsp, 2)]) := by
  constructor
  · obtain ⟨r, hr⟩ := func_walk_total elf_idx2sym data cth.cth_typeoff
      (cth.cth_typeoff - cth.cth_funcoff) cth.cth_funcoff 0 18446744073709551615
      (Nat.le_refl _)
    exact ⟨r, hr, func_walk_lookups _ _ _ _ _ _ _ r hr⟩
  · intro fend fsp idx i h
    rw [func_step_filler _ _ _ _ _ _ h]
    exact ⟨rfl, rfl, rfl, rfl, rfl, rfl⟩

/-- Witness of C11: a section of one function entry and one filler word: one
line printed, one filler skipped, two calls of `elf_idx2sym`. -/
theorem function_walk_symbol_lockstep_witness :
    ctf_dump_functions no_symbols (memcpy_header func_entry_file) func_entry_payload =
      some ⟨[⟨0, none, 3, [1]⟩], 1, [0, 0], [(0, 2), (2, 2), (4, 2), (6, 2)]⟩ ∧
    (func_step no_symbols func_entry_payload 8 6 0 0).fsp = 6 + 2 :=
  ⟨by decide,
    ((function_walk_symbol_lockstep no_symbols (memcpy_header func_entry_file)
      func_entry_payload).2 8 6 0 0 (by decide)).1⟩

/-- C12: on an accepted file whose function section is `[0, 4)`, a filler
word followed by the info word of a function, the return-type word is read at
payload offset 4, the start of the type section: the statement
`printf("returns: %u args: (", *fsp++)` has no test `fsp < fend`. -/
theorem function_return_word_read_past_section :
    isctf func_overrun_file 49 = .Accept ∧
    uncompressed_data func_overrun_file = func_overrun_payload ∧
    (memcpy_header func_overrun_file).cth_funcoff = 0 ∧
    (memcpy_header func_overrun_file).cth_typeoff = 4 ∧
    ctf_dump_functions no_symbols (memcpy_header func_overrun_file) func_overrun_payload =
      some ⟨[⟨1, none, 0, []⟩], 1, [0, 0], [(0, 2), (2, 2), (4, 2)]⟩ ∧
    4 ≥ (memcpy_header func_overrun_file).cth_typeoff := by
  decide

/-- C13, as stated, fails: the entry at 0 of the sample section `[0, 8)` has one
argument and lies inside the section; the cursor moves by 6 bytes, not by
`2 + 2 * 1`. -/
theorem function_entry_advance_is_not_2_plus_2n :
    isctf func_entry_file 53 = .Accept ∧
    (memcpy_header func_entry_file).cth_funcoff = 0 ∧
    (memcpy_header func_entry_file).cth_typeoff = 8 ∧
    CTF_INFO_KIND (get16 func_entry_payload 0) = CTF_K_FUNCTION ∧
    CTF_INFO_VLEN (get16 func_entry_payload 0) = 1 ∧
    (func_step no_symbols func_entry_payload 8 0 0 18446744073709551615).fsp = 0 + 6 ∧
    (func_step no_symbols func_entry_payload 8 0 0 18446744073709551615).fsp ≠
      0 + (2 + 2 * 1) := by
  decide

/-- C13, amended: for a real entry at `fsp` with `vlen = n` whose info word,
return-type word and `n` argument words lie inside the function section, one
iteration of the walk moves the cursor by `4 + 2 * n` bytes and prints the
return type and the `n` argument words. -/
theorem function_entry_advance (elf_idx2sym : Nat → Option String × Nat) (data : List Nat)
    (fend fsp idx i n : Nat)
    (hreal : ¬ (CTF_INFO_KIND (get16 data fsp) = CTF_K_UNKNOWN ∧
      CTF_INFO_VLEN (get16 data fsp) = 0))
    (hv : CTF_INFO_VLEN (get16 data fsp) = n) (hin : fsp + (4 + 2 * n) ≤ fend) :
    (func_step elf_idx2sym data fend fsp idx i).fsp = fsp + (4 + 2 * n) ∧
    (func_step elf_idx2sym data fend fsp idx i).entry =
      some ⟨(i + 1) % 18446744073709551616, (elf_idx2sym idx).1, get16 data (fsp + 2),
        (List.range n).map (fun j => get16 data (fsp + 4 + 2 * j))⟩ := by
  rw [func_step_real _ _ _ _ _ _ hreal, hv]
  obtain ⟨h1, h2, _⟩ := func_args_full data fend n (fsp + 2 + 2) (by omega)
  dsimp only
  rw [h1, h2]
  exact ⟨by omega, rfl⟩

/-- Witness of the amended C13: the entry of the sample section. -/
theorem function_entry_advance_witness :
    (func_step no_symbols func_entry_payload 8 0 0 18446744073709551615).fsp = 6 :=
  (function_entry_advance no_symbols func_entry_payload 8 0 0 18446744073709551615 1
    (by decide) (by decide) (by decide)).1

/-- C14: on an accepted file whose label section is `[0, 4)`, of length 4, the
walk prints one label entry, not `4 / 8 = 0`, and reads it at `[0, 8)`, past
the section end 4: the loop tests only `lbloff < cth.cth_objtoff`. -/
theorem label_walk_reads_partial_entry :
    isctf label_partial_file 49 = .Accept ∧
    uncompressed_data label_partial_file = label_partial_payload ∧
    (memcpy_header label_partial_file).cth_lbloff = 0 ∧
    (memcpy_header label_partial_file).cth_objtoff = 4 ∧
    (ctf_dump_labels (memcpy_header label_partial_file) label_partial_payload 1).map
      (fun r => (r.entries, r.reads)) = some ([(0, "(anon)")], [(0, 8)]) ∧
    (4 - 0) / sizeof_ctf_lblent = 0 ∧
    0 + 8 > (memcpy_header label_partial_file).cth_objtoff := by
  decide

/-- Support for C14: when the length of the label section is a multiple of the
stride, `n` entries long, the walk prints exactly `n` entries and reads
exactly the `n` entries of the section. -/
theorem label_walk_exact (cth : ctf_header) (data : List Nat) (dlen : Int)
    (hobj : cth.cth_objtoff < 4294967296) :
    ∀ n fuel lbloff, n ≤ fuel → lbloff + 8 * n = cth.cth_objtoff →
      ∃ r, label_walk cth data dlen fuel lbloff = some r ∧ r.entries.length = n ∧
        r.reads = (List.range n).map (fun j => (lbloff + 8 * j, 8)) := by
  intro n
  induction n with
  | zero =>
    intro fuel lbloff _ h
    refine ⟨⟨[], []⟩, ?_, rfl, rfl⟩
    cases fuel with
    | zero =>
      unfold label_walk
      rw [if_neg (by omega)]
    | succ f =>
      unfold label_walk
      rw [if_neg (by omega)]
  | succ n ih =>
    intro fuel lbloff hf h
    obtain ⟨f, rfl⟩ : ∃ f, fuel = f + 1 := ⟨fuel - 1, by omega⟩
    have hm : (lbloff + sizeof_ctf_lblent) % 4294967296 = lbloff + 8 := by
      show (lbloff + 8) % 4294967296 = lbloff + 8
      omega
    obtain ⟨r, hr, hl, hrd⟩ := ih f (lbloff + 8) (by omega) (by omega)
    unfold label_walk
    rw [if_pos (by omega), hm, hr]
    refine ⟨_, rfl, ?_, ?_⟩
    · simp only [List.length_cons, hl]
    · simp only [List.range_succ_eq_map, List.map_cons, List.map_map, hrd, Nat.mul_zero,
        Nat.add_zero]
      congr 1
      apply List.map_congr_left
      intro j _
      simp only [Function.comp, Nat.succ_eq_add_one]
      congr 1
      ring

theorem int_encoding_eq (w : Nat) : CTF_INT_ENCODING w = w / 16777216 % 256 :=
  shr_and_mask w 24 8

theorem int_offset_eq (w : Nat) : CTF_INT_OFFSET w = w / 65536 % 256 :=
  shr_and_mask w 16 8

theorem int_bits_eq (w : Nat) : CTF_INT_BITS w = w % 65536 :=
  Nat.and_pow_two_sub_one_eq_mod w 16

set_option maxRecDepth 100000 in
theorem enc_names_256 : ∀ e, e < 256 →
    ctf_enc2name e = int_encoding_name e ∧ ctf_fpenc2name e = fp_encoding_name e := by
  decide

/-- C15: the encoding word `w` of an integer or float record is unpacked into
encoding-id = bits 24..31, bit-offset = bits 16..23 and bit-width = bits 0..15,
which `ctf_dump_type` prints with the name of the encoding-id; for every
encoding-id `e ≤ 255` `ctf_enc2name` gives SIGNED, CHAR, SIGNED CHAR, BOOL,
SIGNED BOOL for 1..5, VARARGS for 8 and the raw hex rendering otherwise, and
`ctf_fpenc2name` gives SINGLE, DOUBLE, LDOUBLE for 1, 2, 6 and the raw hex
rendering otherwise. -/
theorem encoding_unpack_and_names :
    (∀ w, CTF_INT_ENCODING w = w / 16777216 % 256 ∧ CTF_INT_OFFSET w = w / 65536 % 256 ∧
      CTF_INT_BITS w = w % 65536) ∧
    (∀ e, e ≤ 255 →
      ctf_enc2name e = int_encoding_name e ∧ ctf_fpenc2name e = fp_encoding_name e) ∧
    (∀ (cth : ctf_header) (data : List Nat) (dlen : Int) (stroff offset idx : Nat),
      CTF_INFO_KIND (get16 data (offset + 4)) = CTF_K_INTEGER →
      (ctf_dump_type cth data dlen stroff offset idx).body =
        .encoding
          (ctf_enc2name (get32 data (offset + (ctf_type_size data offset).2) / 16777216 % 256))
          (get32 data (offset + (ctf_type_size data offset).2) / 65536 % 256)
          (get32 data (offset + (ctf_type_size data offset).2) % 65536)) ∧
    (∀ (cth : ctf_header) (data : List Nat) (dlen : Int) (stroff offset idx : Nat),
      CTF_INFO_KIND (get16 data (offset + 4)) = CTF_K_FLOAT →
      (ctf_dump_type cth data dlen stroff offset idx).body =
        .encoding
          (ctf_fpenc2name (get32 data (offset + (ctf_type_size data offset).2) / 16777216 % 256))
          (get32 data (offset + (ctf_type_size data offset).2) / 65536 % 256)
          (get32 data (offset + (ctf_type_size data offset).2) % 65536)) := by
  refine ⟨fun w => ⟨int_encoding_eq w, int_offset_eq w, int_bits_eq w⟩,
    fun e he => enc_names_256 e (by omega), ?_, ?_⟩
  · intro cth data dlen stroff offset idx hk
    rw [dump_type_body, switch_kind_integer _ _ _ _ _ _ _ _ _ hk, int_encoding_eq,
      int_offset_eq, int_bits_eq]
  · intro cth data dlen stroff offset idx hk
    rw [dump_type_body, switch_kind_float _ _ _ _ _ _ _ _ _ hk, int_encoding_eq,
      int_offset_eq, int_bits_eq]

/-- Witness of C15: the encoding-ids 3 (a gap of the float table) and 8, and
the integer record of the sample buffer. -/
theorem encoding_unpack_and_names_witness :
    ctf_enc2name 8 = "VARARGS" ∧ ctf_fpenc2name 3 = "0x3" ∧
    (ctf_dump_type (memcpy_header sample_file) (uncompressed_data sample_file) 13 12 0 1).body =
      .encoding "SIGNED" 0 32 :=
  ⟨((encoding_unpack_and_names.2.1 8 (by decide)).1).trans (by decide),
    ((encoding_unpack_and_names.2.1 3 (by decide)).2).trans (by decide),
    (encoding_unpack_and_names.2.2.1 (memcpy_header sample_file) (uncompressed_data sample_file)
      13 12 0 1 (by decide)).trans (by decide)⟩

/-- C16: the handcrafted buffer (valid header, all section offsets 0, string
table at 12 of length 1 holding one NUL, one integer record with encoding word
`(1 << 24) | 32`) is accepted by `isctf`, and the walk of the type section
makes exactly one call of `ctf_dump_type`, which prints kind INTEGER, name
`(anon)`, encoding SIGNED, offset 0, bits 32 and moves the cursor by 12 bytes
to the start of the string table, where the walk ends. -/
theorem handcrafted_integer_record :
    isctf sample_file 49 = .Accept ∧
    sample_file.length = 49 ∧
    (memcpy_header sample_file).cth_flags = 0 ∧
    (memcpy_header sample_file).cth_typeoff = 0 ∧
    (memcpy_header sample_file).cth_stroff = 12 ∧
    (memcpy_header sample_file).cth_strlen = 1 ∧
    ctf_dump_types sample_file 1 =
      some [⟨[(4, 2), (0, 4), (6, 2), (8, 4)], 1, 0, some "INTEGER", "(anon)",
        .encoding "SIGNED" 0 32, none, 12⟩] ∧
    (∀ fuel, ctf_dump_types sample_file (fuel + 1) = ctf_dump_types sample_file 1) := by
  refine ⟨by decide, by decide, by decide, by decide, by decide, by decide, by decide, ?_⟩
  intro fuel
  have h1 : (ctf_dump_type (memcpy_header sample_file) (uncompressed_data sample_file)
      (ctf_dlen (memcpy_header sample_file)) (memcpy_header sample_file).cth_stroff
      (memcpy_header sample_file).cth_typeoff 1).fatal = none := by decide
  have h2 : (ctf_dump_type (memcpy_header sample_file) (uncompressed_data sample_file)
      (ctf_dlen (memcpy_header sample_file)) (memcpy_header sample_file).cth_stroff
      (memcpy_header sample_file).cth_typeoff 1).offset = 12 := by decide
  have h3 : (memcpy_header sample_file).cth_typeoff < (memcpy_header sample_file).cth_stroff := by
    decide
  have h4 : ¬ 12 < (memcpy_header sample_file).cth_stroff := by decide
  have stop : ∀ f idx, type_walk (memcpy_header sample_file) (uncompressed_data sample_file)
      (ctf_dlen (memcpy_header sample_file)) (memcpy_header sample_file).cth_stroff f 12 idx
      = some [] := by
    intro f idx
    cases f with
    | zero =>
      unfold type_walk
      rw [if_neg h4]
    | succ f =>
      unfold type_walk
      rw [if_neg h4]
  unfold ctf_dump_types
  unfold type_walk
  rw [if_pos h3, if_pos h3]
  dsimp only
  rw [if_pos h1, if_pos h1, h2, stop, stop]

/-- C17: the header alone, a buffer of 36 bytes with the compression flag clear
and a string table announced at 12 of length 1, is accepted by `isctf`, which
compares `dlen` with the length of the whole buffer; the payload that follows
the header is empty, shorter than `total_len = 13`. -/
theorem accepted_payload_shorter_than_total_len :
    (file_header 12 1).length = 36 ∧
    isctf (file_header 12 1) 36 = .Accept ∧
    (memcpy_header (file_header 12 1)).cth_flags &&& CTF_F_COMPRESS = 0 ∧
    (memcpy_header (file_header 12 1)).cth_stroff +
      (memcpy_header (file_header 12 1)).cth_strlen = 13 ∧
    (uncompressed_data (file_header 12 1)).length = 36 - sizeof_ctf_header ∧
    (uncompressed_data (file_header 12 1)).length = 0 ∧
    ¬ ((memcpy_header (file_header 12 1)).cth_stroff +
      (memcpy_header (file_header 12 1)).cth_strlen ≤
        (uncompressed_data (file_header 12 1)).length) := by
  decide

theorem off2name_in_table (cth : ctf_header) (data : List Nat) (r : Nat)
    (ht : CTF_NAME_STID r = CTF_STRTAB_0) (ho : CTF_NAME_OFFSET r < cth.cth_strlen) :
    ctf_off2name cth data (ctf_dlen cth) r =
      if byte data (cth.cth_stroff + CTF_NAME_OFFSET r) = 0 then "(anon)"
      else cstring_text data (cth.cth_stroff + CTF_NAME_OFFSET r) := by
  have hm := Nat.mod_le (cth.cth_stroff + CTF_NAME_OFFSET r) 4294967296
  have n1 : ¬ CTF_NAME_STID r ≠ CTF_STRTAB_0 := fun hc => hc ht
  have n2 : ¬ CTF_NAME_OFFSET r ≥ cth.cth_strlen := by omega
  have n3 : ¬ (((cth.cth_stroff + CTF_NAME_OFFSET r) % 4294967296 : Nat) : Int) ≥
      (cth.cth_stroff : Int) + (cth.cth_strlen : Int) := by omega
  unfold ctf_off2name ctf_dlen
  rw [if_neg n1, if_neg n2, if_neg n3]

/-- C18: with `dlen = cth_stroff + cth_strlen`, a name offset that passed the
test against `cth_strlen` is below `dlen` both as the wrapped `uint32_t` sum
`cth_stroff + offset` and as the true position of the name, so `ctf_off2name`
never takes its `invalid` branch: it is the list external, out-of-table
literal, `(anon)`, name. -/
theorem off2name_invalid_unreachable (cth : ctf_header) (data : List Nat) (r : Nat) :
    (CTF_NAME_OFFSET r < cth.cth_strlen →
      (((cth.cth_stroff + CTF_NAME_OFFSET r) % 4294967296 : Nat) : Int) < ctf_dlen cth ∧
      ((cth.cth_stroff + CTF_NAME_OFFSET r : Nat) : Int) < ctf_dlen cth) ∧
    ctf_off2name cth data (ctf_dlen cth) r =
      (if CTF_NAME_STID r ≠ CTF_STRTAB_0 then "external"
       else if CTF_NAME_OFFSET r ≥ cth.cth_strlen then off2name_exceeds
       else if byte data (cth.cth_stroff + CTF_NAME_OFFSET r) = 0 then "(anon)"
       else cstring_text data (cth.cth_stroff + CTF_NAME_OFFSET r)) := by
  have hm := Nat.mod_le (cth.cth_stroff + CTF_NAME_OFFSET r) 4294967296
  constructor
  · intro h
    unfold ctf_dlen
    constructor <;> omega
  · by_cases ht : CTF_NAME_STID r = CTF_STRTAB_0
    · have n1 : ¬ CTF_NAME_STID r ≠ CTF_STRTAB_0 := fun hc => hc ht
      by_cases ho : CTF_NAME_OFFSET r < cth.cth_strlen
      · have n2 : ¬ CTF_NAME_OFFSET r ≥ cth.cth_strlen := by omega
        rw [off2name_in_table cth data r ht ho, if_neg n1, if_neg n2]
      · have p2 : CTF_NAME_OFFSET r ≥ cth.cth_strlen := by omega
        unfold ctf_off2name
        rw [if_neg n1, if_pos p2, if_neg n1, if_pos p2]
    · unfold ctf_off2name
      rw [if_pos ht, if_pos ht]

/-- Witness of C18: the name-ref 1 of the sample enum payload. -/
theorem off2name_invalid_unreachable_witness :
    (((enum_ok_header.cth_stroff + CTF_NAME_OFFSET 1) % 4294967296 : Nat) : Int) <
      ctf_dlen enum_ok_header ∧
    ((enum_ok_header.cth_stroff + CTF_NAME_OFFSET 1 : Nat) : Int) < ctf_dlen enum_ok_header :=
  (off2name_invalid_unreachable enum_ok_header enum_ok_payload 1).1 (by decide)

theorem payload_bytes_le (kind vlen size k : Nat) (hk : k ≤ vlen) (hv : vlen ≤ 1023) :
    payload_bytes kind vlen size k ≤ 16 * 1023 := by
  unfold payload_bytes
  split_ifs <;> omega

theorem dump_type_advance_bounds (cth : ctf_header) (data : List Nat) (dlen : Int)
    (stroff offset idx : Nat)
    (h : (ctf_dump_type cth data dlen stroff offset idx).fatal = none) :
    ∃ t, 8 ≤ t ∧ t ≤ 16 + 16 * 1023 ∧
      (ctf_dump_type cth data dlen stroff offset idx).offset = (offset + t) % 4294967296 := by
  obtain ⟨h1, h2, h3, _⟩ := dump_type_offset_of_ok cth data dlen stroff offset idx h
  have hv : CTF_INFO_VLEN (get16 data (offset + 4)) ≤ 1023 := by
    rw [vlen_eq]
    omega
  have hp := payload_bytes_le (CTF_INFO_KIND (get16 data (offset + 4)))
    (CTF_INFO_VLEN (get16 data (offset + 4))) (ctf_type_size data offset).1
    (body_count (ctf_dump_type cth data dlen stroff offset idx).body) h2 hv
  refine ⟨_, ?_, ?_, h3⟩
  · omega
  · omega

theorem type_walk_bounded (cth : ctf_header) (data : List Nat) (dlen : Int) (stroff : Nat)
    (h : stroff + 16 + 16 * 1023 < 4294967296) :
    ∀ fuel offset idx, (stroff - offset + 7) / 8 ≤ fuel →
      ∃ rs, type_walk cth data dlen stroff fuel offset idx = some rs ∧
        rs.length ≤ (stroff - offset + 7) / 8 := by
  intro fuel
  induction fuel with
  | zero =>
    intro offset idx hf
    unfold type_walk
    rw [if_neg (by omega)]
    exact ⟨[], rfl, Nat.zero_le _⟩
  | succ n ih =>
    intro offset idx hf
    unfold type_walk
    by_cases hlt : offset < stroff
    · rw [if_pos hlt]
      dsimp only
      by_cases hfat : (ctf_dump_type cth data dlen stroff offset idx).fatal = none
      · rw [if_pos hfat]
        obtain ⟨t, t1, t2, t3⟩ := dump_type_advance_bounds cth data dlen stroff offset idx hfat
        have e : (offset + t) % 4294967296 = offset + t := Nat.mod_eq_of_lt (by omega)
        rw [e] at t3
        obtain ⟨rs, hrs, hl⟩ := ih (ctf_dump_type cth data dlen stroff offset idx).offset
          ((idx + 1) % 4294967296) (by omega)
        rw [hrs]
        refine ⟨_, rfl, ?_⟩
        simp only [List.length_cons]
        omega
      · rw [if_neg hfat]
        refine ⟨_, rfl, ?_⟩
        simp only [List.length_singleton]
        omega
    · rw [if_neg hlt]
      exact ⟨[], rfl, Nat.zero_le _⟩

/-- C19: every call of `ctf_dump_type` that returns adds to `*offset` at least
8 and at most `16 + 16 * 1023` bytes; when `cth_stroff + 16 + 16 * 1023 < 2^32`
the cursor cannot wrap, and the loop `while (offset < stroff)` started at
`cth_typeoff` ends after at most `ceil((cth_stroff - cth_typeoff) / 8)` calls. -/
theorem type_walk_terminates (cth : ctf_header) (data : List Nat) (dlen : Int)
    (stroff typeoff idx : Nat) (h : stroff + 16 + 16 * 1023 < 4294967296) :
    (∀ offset idx1, (ctf_dump_type cth data dlen stroff offset idx1).fatal = none →
      ∃ t, 8 ≤ t ∧ t ≤ 16 + 16 * 1023 ∧
        (ctf_dump_type cth data dlen stroff offset idx1).offset = (offset + t) % 4294967296) ∧
    (∀ offset idx1, offset < stroff →
      (ctf_dump_type cth data dlen stroff offset idx1).fatal = none →
      offset + 8 ≤ (ctf_dump_type cth data dlen stroff offset idx1).offset ∧
      (ctf_dump_type cth data dlen stroff offset idx1).offset ≤ offset + (16 + 16 * 1023)) ∧
    (∀ fuel, (stroff - typeoff + 7) / 8 ≤ fuel →
      ∃ rs, type_walk cth data dlen stroff fuel typeoff idx = some rs ∧
        rs.length ≤ (stroff - typeoff + 7) / 8) := by
  refine ⟨fun offset idx1 hf => dump_type_advance_bounds cth data dlen stroff offset idx1 hf,
    ?_, fun fuel hf => type_walk_bounded cth data dlen stroff h fuel typeoff idx hf⟩
  intro offset idx1 hlt hf
  obtain ⟨t, t1, t2, t3⟩ := dump_type_advance_bounds cth data dlen stroff offset idx1 hf
  have e : (offset + t) % 4294967296 = offset + t := Nat.mod_eq_of_lt (by omega)
  rw [t3, e]
  omega

/-- Witness of C19: the type section `[0, 12)` of the sample buffer is walked
in one call, within the bound `ceil(12 / 8) = 2`. -/
theorem type_walk_terminates_witness :
    ∃ rs, type_walk (memcpy_header sample_file) (uncompressed_data sample_file) 13 12 2 0 1 =
      some rs ∧ rs.length ≤ (12 - 0 + 7) / 8 :=
  (type_walk_terminates (memcpy_header sample_file) (uncompressed_data sample_file) 13 12 0 1
    (by decide)).2.2 2 (by decide)

/-- C20: on an accepted file whose string table, of length 8, holds the empty
string at 0 and the string `(anon)` at 1, the walk visits the offsets 0, 1 and
2: the string at 1, of length 6, compares equal to the text printed for an
empty name, so the cursor moves by 1 instead of 7, to offset 2, which does
not follow a NUL byte. -/
theorem strtab_walk_splits_anon_string :
    isctf strtab_anon_file 44 = .Accept ∧
    uncompressed_data strtab_anon_file = strtab_anon_payload ∧
    (memcpy_header strtab_anon_file).cth_stroff = 0 ∧
    (memcpy_header strtab_anon_file).cth_strlen = 8 ∧
    byte strtab_anon_payload (8 - 1) = 0 ∧
    strtab_walk (memcpy_header strtab_anon_file) strtab_anon_payload
        (ctf_dlen (memcpy_header strtab_anon_file)) 8 0 =
      some [(0, "(anon)"), (1, "(anon)"), (2, "anon)")] ∧
    (cstring strtab_anon_payload 1).length = 6 ∧
    strtab_next (memcpy_header strtab_anon_file) strtab_anon_payload
        (ctf_dlen (memcpy_header strtab_anon_file)) 1 = 2 ∧
    byte strtab_anon_payload (2 - 1) ≠ 0 := by
  decide

/-- Support for C20: at an offset inside a string table shorter than `2^31`,
an empty string moves the cursor by 1 and a string of `k` bytes other than
`(anon)` moves it by `k + 1`. -/
theorem strtab_next_ordinary (cth : ctf_header) (data : List Nat) (offset : Nat)
    (hs : cth.cth_strlen < 2147483648) (ho : offset < cth.cth_strlen) :
    (byte data (cth.cth_stroff + offset) = 0 →
      strtab_next cth data (ctf_dlen cth) offset = (offset + 1) % 4294967296) ∧
    (byte data (cth.cth_stroff + offset) ≠ 0 →
      cstring_text data (cth.cth_stroff + offset) ≠ "(anon)" →
      strtab_next cth data (ctf_dlen cth) offset =
        (offset + ((cstring data (cth.cth_stroff + offset)).length + 1)) % 4294967296) := by
  have e1 : CTF_NAME_OFFSET offset = offset := by
    rw [name_offset_eq]
    exact Nat.mod_eq_of_lt (by omega)
  have e2 : CTF_NAME_STID offset = CTF_STRTAB_0 := by
    rw [name_stid_eq]
    exact Nat.div_eq_of_lt (by omega)
  have hn := off2name_in_table cth data offset e2 (by omega)
  rw [e1] at hn
  constructor
  · intro hb
    rw [if_pos hb] at hn
    unfold strtab_next
    rw [hn, if_neg (by simp)]
  · intro hb hne
    rw [if_neg hb] at hn
    unfold strtab_next
    rw [hn, if_pos hne]
    unfold cstring_text
    simp only [String.length, List.length_map]

end Ctfdump
